import Mathlib

/-!
Shallow embedding of the edge agent's local-store operations of the
backend_jetson repository: `app/local_db/crud_edge.py`,
`app/identification/driver_identity.py` and `app/sync/cloud_sync.py`.

Conventions of the embedding:

* UUIDs are modelled as `Nat`; timestamps as `Nat` (seconds since an epoch,
  so the 24-hour staleness window of `should_update_conductor_data` is
  `24 * 3600`).
* The persisted state of the SQLite store is the `EdgeDB` record.  Every
  `db.commit()` of the Python code consults a commit oracle
  `commit_ok : Nat → Bool` at a running commit counter `k`; a failed commit
  leaves the persisted state unchanged and raises.  A raise is propagated as
  `DbStep.raised` up to the enclosing `try`.  Inside
  `try_sync_conductor_from_cloud_conditional` the exception is caught and
  turned into a `False` return; the ORM session is then left in a state
  where any further query raises, which the embedding records in the
  `broken` flag of `SyncOut` (the in-memory conductor object keeps the
  uncommitted field values, also recorded in `SyncOut`).
* Python truthiness of optional strings and lists is modelled explicitly:
  `none` and the empty string / empty list are falsy.
* `str.startswith` is modelled by `py_startswith` via character-list
  prefixes.
* Fresh `uuid.uuid4()` values (new assignment ids, session ids, event ids)
  are passed in as explicit `fresh_*` parameters.
* Network effects are modelled by outcome oracles: `CloudResp` for the
  driver fetch, `PostOutcome` for the single event-batch POST, and a
  per-record `send_ok` predicate for telemetry POSTs.  File-system effects
  of the cleanup pass are modelled by `fs_exists` / `remove_ok` oracles.
* JSON metadata payloads, GPS strings, confidence scores, byte counters and
  the mock alert / session-push collaborators (pure side channels that no
  claim mentions) are not carried.
-/

/-- Python `s.startswith(p)`, modelled on the character lists of the two
strings. -/
def py_startswith (s p : String) : Bool :=
  p.data.isPrefixOf s.data

/-- Row of `conductores_local` (`ConductorLocal` in
`edge_database_models.py`).  The JSON embedding column is a list of ints. -/
structure ConductorLocal where
  id : Nat
  cedula : String
  nombre_completo : String
  codigo_qr_hash : String
  caracteristicas_faciales_embedding : Option (List Int)
  activo : Bool
  last_updated_at : Option Nat
deriving DecidableEq

/-- Row of `asignaciones_conductores_buses_local`
(`AsignacionConductorBusLocal`).  The accumulated-driving-seconds counter is
not carried (no modelled operation reads or writes it). -/
structure AsignacionConductorBusLocal where
  id : Nat
  id_conductor : Nat
  id_bus : Nat
  id_sesion_conduccion : Nat
  fecha_inicio_asignacion : Nat
  fecha_fin_asignacion : Option Nat
  estado_turno : String
  tipo_asignacion : Option String
deriving DecidableEq

/-- Row of `eventos_local` (`EventoLocal`). -/
structure EventoLocal where
  id : Nat
  id_bus : Nat
  id_conductor : Nat
  id_sesion_conduccion : Option Nat
  timestamp_evento : Nat
  tipo_evento : String
  subtipo_evento : Option String
  severidad : Option String
  alerta_disparada : Bool
  synced_to_cloud : Bool
  sent_to_cloud_at : Option Nat
  snapshot_local_path : Option String
  video_clip_local_path : Option String
  archivos_synced : Bool
deriving DecidableEq

/-- Row of `telemetry_local` (`TelemetryLocal`); the numeric metric columns
are not carried (claims only concern the sync flag). -/
structure TelemetryLocal where
  id : Nat
  id_hardware_jetson : String
  timestamp_telemetry : Nat
  synced_to_cloud : Bool
  sent_to_cloud_at : Option Nat
deriving DecidableEq

/-- Row of `sincronizacion_metadata` (`SincronizacionMetadata`). -/
structure SincronizacionMetadata where
  tabla_nombre : String
  ultimo_id_sincronizado_local : Option Nat
  last_pushed_at : Option Nat
  last_pulled_at : Option Nat
deriving DecidableEq

/-- The single row of `configuracion_jetson_local`
(`ConfiguracionJetsonLocal`). -/
structure ConfiguracionJetsonLocal where
  id_hardware_jetson : String
  id_bus_asignado : Option Nat
deriving DecidableEq

/-- Persisted state of the local store. -/
structure EdgeDB where
  config : Option ConfiguracionJetsonLocal
  conductores : List ConductorLocal
  asignaciones : List AsignacionConductorBusLocal
  eventos : List EventoLocal
  telemetria : List TelemetryLocal
  sync_metadata : List SincronizacionMetadata
deriving DecidableEq

/-- Remote driver payload as consumed by
`try_sync_conductor_from_cloud_conditional` (a dict: every key may be
absent). -/
structure CloudConductorData where
  cedula : Option String
  nombre_completo : Option String
  caracteristicas_faciales_embedding : Option (List Int)
  activo : Option Bool
deriving DecidableEq

/-- Outcome of one call of the injected `cloud_sync_function`:
a payload, a falsy result (driver unknown remotely), or a raised
exception (timeout, connection error, HTTP error...). -/
inductive CloudResp where
  | found (d : CloudConductorData)
  | missing
  | raised
deriving DecidableEq

/-- Result of a store operation that commits: either the new persisted
state with a value, or a raised exception carrying the state persisted so
far. -/
inductive DbStep (α : Type) where
  | ok (db : EdgeDB) (k : Nat) (a : α)
  | raised (db : EdgeDB) (k : Nat)

/-- Replace the first element satisfying `p` (SQLAlchemy
`query.filter(...).first()` followed by a field mutation and commit). -/
def replaceFirst {α : Type} (p : α → Bool) (f : α → α) : List α → List α
  | [] => []
  | a :: as => if p a then f a :: as else a :: replaceFirst p f as

-- --- crud_edge.py: conductores ---

/-- `get_conductor_by_uuid` (also `get_conductor_by_id_local`). -/
def get_conductor_by_uuid (db : EdgeDB) (conductor_uuid : Nat) :
    Option ConductorLocal :=
  db.conductores.find? (fun c => c.id == conductor_uuid)

/-- Placeholder cedula used by `ensure_conductor_exists_minimal`:
`"PENDING_SYNC_" + str(uuid)[:8]`. -/
def pending_cedula (u : Nat) : String :=
  "PENDING_SYNC_" ++ (toString u).take 8

/-- Placeholder display name used by `ensure_conductor_exists_minimal`:
`"Conductor Pendiente " + str(uuid)[:8]`. -/
def pending_nombre (u : Nat) : String :=
  "Conductor Pendiente " ++ (toString u).take 8

/-- The minimal conductor row built by `ensure_conductor_exists_minimal`;
`last_updated_at` takes the column default (creation time). -/
def minimal_conductor_data (u now : Nat) : ConductorLocal :=
  { id := u
  , cedula := pending_cedula u
  , nombre_completo := pending_nombre u
  , codigo_qr_hash := toString u
  , caracteristicas_faciales_embedding := none
  , activo := true
  , last_updated_at := some now }

/-- `ensure_conductor_exists_minimal`: return the cached conductor, or
create the minimal placeholder row (one commit). -/
def ensure_conductor_exists_minimal (db : EdgeDB) (conductor_uuid now : Nat)
    (commit_ok : Nat → Bool) (k : Nat) : DbStep ConductorLocal :=
  match get_conductor_by_uuid db conductor_uuid with
  | some c => .ok db k c
  | none =>
    let c := minimal_conductor_data conductor_uuid now
    if commit_ok k then
      .ok { db with conductores := db.conductores ++ [c] } (k + 1) c
    else
      .raised db (k + 1)

/-- `is_conductor_data_minimal`. -/
def is_conductor_data_minimal (c : ConductorLocal) : Bool :=
  py_startswith c.cedula "PENDING_SYNC_" ||
    py_startswith c.nombre_completo "Conductor Pendiente"

/-- `should_update_conductor_data` (callers use the default
`max_age_hours = 24`). -/
def should_update_conductor_data (c : ConductorLocal) (now : Nat)
    (max_age_hours : Nat) : Bool :=
  if is_conductor_data_minimal c then true
  else if (match c.last_updated_at with
           | some t => decide (now - t > max_age_hours * 3600)
           | none => false) then true
  else if (match c.caracteristicas_faciales_embedding with
           | some l => l.isEmpty
           | none => true) then true
  else false

-- --- try_sync_conductor_from_cloud_conditional, field-update block ---

/-- Cedula update step: applied when the cloud cedula is truthy and the
local one is the placeholder or differs. -/
def upd_cedula (c : ConductorLocal) (d : CloudConductorData) :
    ConductorLocal × Bool :=
  match d.cedula with
  | some s =>
    if (s != "") && (py_startswith c.cedula "PENDING_SYNC_" || c.cedula != s)
    then ({ c with cedula := s }, true) else (c, false)
  | none => (c, false)

/-- Name update step: applied when the cloud name is truthy and the local
one is the placeholder or differs. -/
def upd_nombre (c : ConductorLocal) (d : CloudConductorData) :
    ConductorLocal × Bool :=
  match d.nombre_completo with
  | some s =>
    if (s != "") &&
       (py_startswith c.nombre_completo "Conductor Pendiente" ||
         c.nombre_completo != s)
    then ({ c with nombre_completo := s }, true) else (c, false)
  | none => (c, false)

/-- Embedding update step: applied when the cloud embedding is truthy and
differs from the local one. -/
def upd_embedding (c : ConductorLocal) (d : CloudConductorData) :
    ConductorLocal × Bool :=
  match d.caracteristicas_faciales_embedding with
  | some l =>
    if (!l.isEmpty) && (c.caracteristicas_faciales_embedding != some l)
    then ({ c with caracteristicas_faciales_embedding := some l }, true)
    else (c, false)
  | none => (c, false)

/-- Active-flag update step: `cloud_activo = data.get('activo', True)`. -/
def upd_activo (c : ConductorLocal) (d : CloudConductorData) :
    ConductorLocal × Bool :=
  let cloud_activo := d.activo.getD true
  if c.activo != cloud_activo then ({ c with activo := cloud_activo }, true)
  else (c, false)

/-- The whole field-comparison block of
`try_sync_conductor_from_cloud_conditional`: the updated conductor and the
`updated` flag. -/
def apply_cloud_conductor_fields (c : ConductorLocal)
    (d : CloudConductorData) : ConductorLocal × Bool :=
  let p1 := upd_cedula c d
  let p2 := upd_nombre p1.1 d
  let p3 := upd_embedding p2.1 d
  let p4 := upd_activo p3.1 d
  (p4.1, p1.2 || p2.2 || p3.2 || p4.2)

/-- Result of `try_sync_conductor_from_cloud_conditional`: persisted state,
in-memory conductor object, commit counter, the returned boolean, and
whether a failed commit left the ORM session unusable. -/
structure SyncOut where
  db : EdgeDB
  conductor : ConductorLocal
  k : Nat
  success : Bool
  broken : Bool
deriving DecidableEq

/-- `try_sync_conductor_from_cloud_conditional`. -/
def try_sync_conductor_from_cloud_conditional (db : EdgeDB)
    (c : ConductorLocal) (cloud_sync_function : Nat → CloudResp)
    (force_update : Bool) (now : Nat) (commit_ok : Nat → Bool) (k : Nat) :
    SyncOut :=
  if !force_update && !should_update_conductor_data c now 24 then
    ⟨db, c, k, true, false⟩
  else
    match cloud_sync_function c.id with
    | .raised => ⟨db, c, k, false, false⟩
    | .missing => ⟨db, c, k, false, false⟩
    | .found d =>
      let p := apply_cloud_conductor_fields c d
      if p.2 then
        let c2 := { p.1 with last_updated_at := some now }
        if commit_ok k then
          let cs := db.conductores.map (fun x => if x.id == c.id then c2 else x)
          let db2 := { db with conductores := cs }
          ⟨db2, c2, k + 1, true, false⟩
        else
          ⟨db, c2, k + 1, false, true⟩
      else
        ⟨db, c, k, true, false⟩

-- --- crud_edge.py: asignaciones ---

/-- The active-session predicate of `get_active_asignacion_for_bus`:
`estado_turno == 'Activo'` and `fecha_fin_asignacion IS NULL` for the
given bus. -/
def activo_para_bus (bus_id : Nat) (a : AsignacionConductorBusLocal) :
    Bool :=
  a.id_bus == bus_id && a.estado_turno == "Activo" &&
    a.fecha_fin_asignacion.isNone

/-- `get_active_asignacion_for_bus` (`.first()` of the filtered query). -/
def get_active_asignacion_for_bus (db : EdgeDB) (bus_id : Nat) :
    Option AsignacionConductorBusLocal :=
  db.asignaciones.find? (activo_para_bus bus_id)

/-- `create_asignacion_conductor_bus_local` (one commit; the row id is the
`uuid4` column default, passed as `fresh_id`). -/
def create_asignacion_conductor_bus_local (db : EdgeDB)
    (fresh_id id_conductor id_bus id_sesion_conduccion
      fecha_inicio_asignacion : Nat) (estado_turno : String)
    (tipo_asignacion : Option String) (commit_ok : Nat → Bool) (k : Nat) :
    DbStep AsignacionConductorBusLocal :=
  let a : AsignacionConductorBusLocal :=
    { id := fresh_id
    , id_conductor := id_conductor
    , id_bus := id_bus
    , id_sesion_conduccion := id_sesion_conduccion
    , fecha_inicio_asignacion := fecha_inicio_asignacion
    , fecha_fin_asignacion := none
    , estado_turno := estado_turno
    , tipo_asignacion := tipo_asignacion }
  if commit_ok k then
    .ok { db with asignaciones := db.asignaciones ++ [a] } (k + 1) a
  else
    .raised db (k + 1)

/-- `update_asignacion_conductor_bus_local`: write the (mutated) fetched row
back under its primary key (one commit). -/
def update_asignacion_conductor_bus_local (db : EdgeDB)
    (a : AsignacionConductorBusLocal) (commit_ok : Nat → Bool) (k : Nat) :
    DbStep AsignacionConductorBusLocal :=
  if commit_ok k then
    let xs := db.asignaciones.map (fun x => if x.id == a.id then a else x)
    let db2 := { db with asignaciones := xs }
    .ok db2 (k + 1) a
  else
    .raised db (k + 1)

-- --- create_driver_session_from_qr_robust ---

/-- The `resultado` dict of `create_driver_session_from_qr_robust`. -/
structure Resultado where
  status : String
  message : String
  conductor_actualizado : Bool
  operacion_offline : Bool
  datos_temporales : Bool
deriving DecidableEq

/-- Initial value of the `resultado` dict. -/
def resultado_inicial : Resultado :=
  { status := "error"
  , message := "Error desconocido"
  , conductor_actualizado := false
  , operacion_offline := false
  , datos_temporales := false }

/-- Return value of `create_driver_session_from_qr_robust`:
`(asignacion_creada, conductor, resultado_info)` plus persisted state and
commit counter. -/
structure ScanOut where
  db : EdgeDB
  k : Nat
  session : Option AsignacionConductorBusLocal
  conductor : Option ConductorLocal
  resultado : Resultado
deriving DecidableEq

/-- PASO 5 of `create_driver_session_from_qr_robust`: create the new
`'Activo'` session (tipo `'QR_Scan'`); an exception lands in the outer
handler. -/
def paso_5_create (db : EdgeDB) (c : ConductorLocal)
    (bus_id current_time fresh_asig_id fresh_sesion_id : Nat)
    (r : Resultado) (commit_ok : Nat → Bool) (k : Nat) : ScanOut :=
  match create_asignacion_conductor_bus_local db fresh_asig_id c.id bus_id
      fresh_sesion_id current_time "Activo" (some "QR_Scan") commit_ok k with
  | .raised db1 k1 =>
    ⟨db1, k1, none, none,
      { r with status := "error", message := "Error del sistema" }⟩
  | .ok db1 k1 a =>
    let base := "Sesión iniciada para " ++ c.nombre_completo
    let msg :=
      if r.datos_temporales then
        base ++ " (datos temporales - verificar conectividad)"
      else if !r.conductor_actualizado then
        base ++ " (sin actualización cloud)"
      else base
    ⟨db1, k1, some a, some c,
      { r with status := "session_started", message := msg }⟩

/-- PASO 4 and PASO 5 of `create_driver_session_from_qr_robust`: close the
current session when the same driver scans again (session end), or close it
and immediately open a new one when a different driver scans. -/
def paso_4_5_session_transition (db : EdgeDB) (c : ConductorLocal)
    (bus_id current_time fresh_asig_id fresh_sesion_id : Nat)
    (r : Resultado) (commit_ok : Nat → Bool) (k : Nat) : ScanOut :=
  match get_active_asignacion_for_bus db bus_id with
  | some active_session =>
    let closed := { active_session with
                    fecha_fin_asignacion := some current_time,
                    estado_turno := "Finalizado" }
    if active_session.id_conductor == c.id then
      match update_asignacion_conductor_bus_local db closed commit_ok k with
      | .raised db1 k1 =>
        ⟨db1, k1, none, none,
          { r with status := "error", message := "Error del sistema" }⟩
      | .ok db1 k1 _ =>
        let m2 := "Sesión finalizada para " ++ c.nombre_completo
        let r2 := { r with status := "session_ended", message := m2 }
        ⟨db1, k1, none, some c, r2⟩
    else
      match update_asignacion_conductor_bus_local db closed commit_ok k with
      | .raised db1 k1 =>
        ⟨db1, k1, none, none,
          { r with status := "error", message := "Error del sistema" }⟩
      | .ok db1 k1 _ =>
        paso_5_create db1 c bus_id current_time fresh_asig_id
          fresh_sesion_id r commit_ok k1
  | none =>
    paso_5_create db c bus_id current_time fresh_asig_id fresh_sesion_id r
      commit_ok k

/-- `create_driver_session_from_qr_robust`.  `qr_data` is the result of
`uuid.UUID(qr_data)`: `none` when the scanned text does not parse as a
UUID.  Exceptions from persistence steps are caught by the outer handler
and produce the `'error'` / system-error result with the state persisted so
far. -/
def create_driver_session_from_qr_robust (db : EdgeDB)
    (qr_data : Option Nat) (bus_id : Nat)
    (cloud_sync_function : Nat → CloudResp) (current_time : Nat)
    (fresh_asig_id fresh_sesion_id : Nat) (commit_ok : Nat → Bool)
    (k : Nat) : ScanOut :=
  match qr_data with
  | none =>
    ⟨db, k, none, none,
      { resultado_inicial with
        message := "QR inválido: no es un UUID válido" }⟩
  | some conductor_uuid =>
    let paso1 : DbStep ConductorLocal :=
      match get_conductor_by_uuid db conductor_uuid with
      | some c => .ok db k c
      | none =>
        ensure_conductor_exists_minimal db conductor_uuid current_time
          commit_ok k
    match paso1 with
    | .raised db1 k1 =>
      ⟨db1, k1, none, none,
        { resultado_inicial with message := "Error del sistema" }⟩
    | .ok db1 k1 c =>
      let s := try_sync_conductor_from_cloud_conditional db1 c
        cloud_sync_function false current_time commit_ok k1
      let r : Resultado :=
        { status := "error"
        , message := "Error desconocido"
        , conductor_actualizado := s.success
        , operacion_offline := !s.success
        , datos_temporales := is_conductor_data_minimal s.conductor }
      if !s.conductor.activo then
        ⟨s.db, s.k, none, some s.conductor,
          { r with message :=
              "Conductor " ++ s.conductor.nombre_completo ++
                " está inactivo" }⟩
      else if s.broken then
        ⟨s.db, s.k, none, none,
          { r with message := "Error del sistema" }⟩
      else
        paso_4_5_session_transition s.db s.conductor bus_id current_time
          fresh_asig_id fresh_sesion_id r commit_ok s.k

-- --- driver_identity.py ---

/-- The error event written by `_record_session_error_event`: null session
reference, type `'SistemaError'`. -/
def session_error_event (fresh_event_id bus_id conductor_id now : Nat) :
    EventoLocal :=
  { id := fresh_event_id
  , id_bus := bus_id
  , id_conductor := conductor_id
  , id_sesion_conduccion := none
  , timestamp_evento := now
  , tipo_evento := "SistemaError"
  , subtipo_evento := some "Error Gestion Sesion"
  , severidad := some "Media"
  , alerta_disparada := true
  , synced_to_cloud := false
  , sent_to_cloud_at := none
  , snapshot_local_path := none
  , video_clip_local_path := none
  , archivos_synced := false }

/-- `_record_session_error_event` (exceptions are caught internally: a
failed commit journals nothing). -/
def record_session_error_event (db : EdgeDB)
    (bus_id conductor_id now fresh_event_id : Nat)
    (commit_ok : Nat → Bool) (k : Nat) : EdgeDB × Nat :=
  if commit_ok k then
    let db2 := { db with eventos := db.eventos ++
      [session_error_event fresh_event_id bus_id conductor_id now] }
    (db2, k + 1)
  else (db, k + 1)

/-- The event written by `_record_unidentified_driver_event`: placeholder
zero conductor id, null session reference, type `'Identificacion'`. -/
def unidentified_driver_event (fresh_event_id bus_id now : Nat) :
    EventoLocal :=
  { id := fresh_event_id
  , id_bus := bus_id
  , id_conductor := 0
  , id_sesion_conduccion := none
  , timestamp_evento := now
  , tipo_evento := "Identificacion"
  , subtipo_evento := some "Conductor No Identificado"
  , severidad := some "Alta"
  , alerta_disparada := true
  , synced_to_cloud := false
  , sent_to_cloud_at := none
  , snapshot_local_path := none
  , video_clip_local_path := none
  , archivos_synced := false }

/-- `_record_unidentified_driver_event` (exceptions caught internally). -/
def record_unidentified_driver_event (db : EdgeDB)
    (bus_id now fresh_event_id : Nat) (commit_ok : Nat → Bool) (k : Nat) :
    EdgeDB × Nat :=
  if commit_ok k then
    let db2 := { db with eventos := db.eventos ++
      [unidentified_driver_event fresh_event_id bus_id now] }
    (db2, k + 1)
  else (db, k + 1)

/-- Return value of `identify_and_manage_session`: persisted state, the
returned conductor, commit counter. -/
structure IdentifyOut where
  db : EdgeDB
  conductor : Option ConductorLocal
  k : Nat
deriving DecidableEq

/-- `identify_and_manage_session`: look up the agent's bus, run the robust
scan transition, and on an error result journal exactly one error event
(with conductor when one was resolved, as unidentified otherwise).  The
alert and best-effort cloud pushes of the success branches change no local
state. -/
def identify_and_manage_session (db : EdgeDB) (qr_data : Option Nat)
    (cloud_sync_function : Nat → CloudResp) (current_time : Nat)
    (fresh_asig_id fresh_sesion_id fresh_event_id : Nat)
    (commit_ok : Nat → Bool) (k : Nat) : IdentifyOut :=
  match db.config with
  | none => ⟨db, none, k⟩
  | some cfg =>
    match cfg.id_bus_asignado with
    | none => ⟨db, none, k⟩
    | some current_bus_id =>
      let o := create_driver_session_from_qr_robust db qr_data
        current_bus_id cloud_sync_function current_time fresh_asig_id
        fresh_sesion_id commit_ok k
      if o.resultado.status == "session_started" then
        ⟨o.db, o.conductor, o.k⟩
      else if o.resultado.status == "session_ended" then
        ⟨o.db, o.conductor, o.k⟩
      else
        match o.conductor with
        | some c =>
          let p := record_session_error_event o.db current_bus_id c.id
            current_time fresh_event_id commit_ok o.k
          ⟨p.1, some c, p.2⟩
        | none =>
          let p := record_unidentified_driver_event o.db current_bus_id
            current_time fresh_event_id commit_ok o.k
          ⟨p.1, none, p.2⟩

-- --- crud_edge.py: eventos ---

/-- `get_unsynced_events`: up to `limit` events with
`synced_to_cloud == False`. -/
def get_unsynced_events (db : EdgeDB) (limit : Nat) : List EventoLocal :=
  (db.eventos.filter (fun e => e.synced_to_cloud == false)).take limit

/-- `mark_event_as_synced`: flip `synced_to_cloud` and stamp
`sent_to_cloud_at` on the first row with the given id. -/
def mark_event_as_synced (db : EdgeDB) (event_id now : Nat) : EdgeDB :=
  let evs := replaceFirst (fun e => e.id == event_id)
    (fun e => { e with synced_to_cloud := true, sent_to_cloud_at := some now })
    db.eventos
  { db with eventos := evs }

/-- `mark_event_files_as_synced`: flip `archivos_synced` on the first row
with the given id. -/
def mark_event_files_as_synced (db : EdgeDB) (event_id : Nat) : EdgeDB :=
  let evs := replaceFirst (fun e => e.id == event_id)
    (fun e => { e with archivos_synced := true }) db.eventos
  { db with eventos := evs }

/-- Cleanup statistics of `cleanup_event_files` (freed-bytes counter not
carried; errors counted, not listed). -/
structure CleanupStats where
  archivos_borrados : Nat
  errores : Nat
deriving DecidableEq

/-- `cleanup_event_files`: delete the media files of an event (when truthy
paths exist on disk), null the corresponding path columns, and commit the
row only when at least one file was removed; `fs_exists` and `remove_ok`
model `os.path.exists` and `os.remove`.  This is the snapshot block. -/
def cleanup_snapshot_step (event : EventoLocal)
    (fs_exists remove_ok : String → Bool) : EventoLocal × Nat × Nat :=
  match event.snapshot_local_path with
  | some p =>
    if (p != "") && fs_exists p then
      if remove_ok p then ({ event with snapshot_local_path := none }, 1, 0)
      else (event, 0, 1)
    else (event, 0, 0)
  | none => (event, 0, 0)

/-- The video-clip block of `cleanup_event_files`. -/
def cleanup_video_step (e1 : EventoLocal)
    (fs_exists remove_ok : String → Bool) : EventoLocal × Nat × Nat :=
  match e1.video_clip_local_path with
  | some p =>
    if (p != "") && fs_exists p then
      if remove_ok p then ({ e1 with video_clip_local_path := none }, 1, 0)
      else (e1, 0, 1)
    else (e1, 0, 0)
  | none => (e1, 0, 0)

/-- `cleanup_event_files`: delete the media files of an event (when truthy
paths exist on disk), null the corresponding path columns, and commit the
row only when at least one file was removed. -/
def cleanup_event_files (db : EdgeDB) (event : EventoLocal)
    (fs_exists remove_ok : String → Bool) : EdgeDB × CleanupStats :=
  let s1 := cleanup_snapshot_step event fs_exists remove_ok
  let s2 := cleanup_video_step s1.1 fs_exists remove_ok
  let e2 := s2.1
  let borrados := s1.2.1 + s2.2.1
  let errores := s1.2.2 + s2.2.2
  if borrados > 0 then
    let evs := replaceFirst (fun x => x.id == event.id) (fun _ => e2) db.eventos
    let db2 := { db with eventos := evs }
    (db2, ⟨borrados, errores⟩)
  else (db, ⟨borrados, errores⟩)

-- --- crud_edge.py: event creation with session validation ---

/-- Caller-supplied `event_data` dict for
`create_event_with_session_validation` / `create_event_with_multimedia`
(the id/conductor/session/bus keys may or may not be present; they are
overwritten by the validating wrapper). -/
structure EventData where
  id_bus : Option Nat
  id_conductor : Option Nat
  id_sesion_conduccion : Option Nat
  timestamp_evento : Nat
  tipo_evento : String
  subtipo_evento : Option String
  severidad : Option String
  alerta_disparada : Bool
  snapshot_local_path : Option String
  video_clip_local_path : Option String
  archivos_synced : Bool
deriving DecidableEq

/-- `create_local_event`: insert a new `EventoLocal` built from the data
dict; `synced_to_cloud` takes its `False` column default, the row id its
`uuid4` default (`fresh_id`).  Absent NOT NULL keys would fail at the
store; the claims' call paths always set them, so absent bus/conductor ids
default to 0 here. -/
def create_local_event (db : EdgeDB) (ed : EventData) (fresh_id : Nat) :
    EventoLocal × EdgeDB :=
  let ev : EventoLocal :=
    { id := fresh_id
    , id_bus := ed.id_bus.getD 0
    , id_conductor := ed.id_conductor.getD 0
    , id_sesion_conduccion := ed.id_sesion_conduccion
    , timestamp_evento := ed.timestamp_evento
    , tipo_evento := ed.tipo_evento
    , subtipo_evento := ed.subtipo_evento
    , severidad := ed.severidad
    , alerta_disparada := ed.alerta_disparada
    , synced_to_cloud := false
    , sent_to_cloud_at := none
    , snapshot_local_path := ed.snapshot_local_path
    , video_clip_local_path := ed.video_clip_local_path
    , archivos_synced := ed.archivos_synced }
  (ev, { db with eventos := db.eventos ++ [ev] })

/-- `create_event_with_multimedia`: attach truthy media paths, force
`archivos_synced = False`, insert. -/
def create_event_with_multimedia (db : EdgeDB) (ed : EventData)
    (snapshot_path video_clip_path : Option String) (fresh_id : Nat) :
    EventoLocal × EdgeDB :=
  let ed1 :=
    match snapshot_path with
    | some p => if p != "" then { ed with snapshot_local_path := some p }
                else ed
    | none => ed
  let ed2 :=
    match video_clip_path with
    | some p => if p != "" then { ed1 with video_clip_local_path := some p }
                else ed1
    | none => ed1
  let ed3 := { ed2 with archivos_synced := false }
  create_local_event db ed3 fresh_id

/-- `create_event_with_session_validation`: refuse when the bus has no
active assignment; otherwise overwrite the driver / session / bus
references from the active assignment and insert. -/
def create_event_with_session_validation (db : EdgeDB) (bus_id : Nat)
    (ed : EventData) (snapshot_path video_clip_path : Option String)
    (fresh_id : Nat) : Option EventoLocal × String × EdgeDB :=
  match get_active_asignacion_for_bus db bus_id with
  | none => (none, "error", db)
  | some active_session =>
    let ed1 := { ed with
      id_conductor := some active_session.id_conductor
      id_sesion_conduccion := some active_session.id_sesion_conduccion
      id_bus := some bus_id }
    let p := create_event_with_multimedia db ed1 snapshot_path
      video_clip_path fresh_id
    (some p.1, "success", p.2)

-- --- cloud_sync.py ---

/-- Outcome of the single batch POST of `send_events_to_cloud`:
`success` is a response that passes `raise_for_status()`; the other three
constructors are the caught `requests` exceptions (timeout, connection
error, HTTP error status). -/
inductive PostOutcome where
  | success
  | timeout
  | connError
  | httpError
deriving DecidableEq

/-- `get_sync_metadata`. -/
def get_sync_metadata (db : EdgeDB) (table_name : String) :
    Option SincronizacionMetadata :=
  db.sync_metadata.find? (fun m => m.tabla_nombre == table_name)

/-- `create_or_update_sync_metadata` with the kwargs the sync passes:
`last_pushed_at` and `ultimo_id_sincronizado_local`. -/
def create_or_update_sync_metadata (db : EdgeDB) (table_name : String)
    (last_pushed ultimo_id : Nat) : EdgeDB :=
  match get_sync_metadata db table_name with
  | some _ =>
    let ms := replaceFirst (fun m => m.tabla_nombre == table_name)
      (fun m => { m with last_pushed_at := some last_pushed,
                         ultimo_id_sincronizado_local := some ultimo_id })
      db.sync_metadata
    { db with sync_metadata := ms }
  | none =>
    let m : SincronizacionMetadata :=
      { tabla_nombre := table_name
      , ultimo_id_sincronizado_local := some ultimo_id
      , last_pushed_at := some last_pushed
      , last_pulled_at := none }
    { db with sync_metadata := db.sync_metadata ++ [m] }

/-- `send_events_to_cloud`: select up to `batch_size` unsynced events, POST
them as one batch; on success mark every selected event and advance the
watermark to the last id of the batch, on any caught exception change
nothing and return `False`. -/
def send_events_to_cloud (db : EdgeDB) (batch_size : Nat)
    (post : PostOutcome) (now : Nat) : EdgeDB × Bool :=
  let unsynced := get_unsynced_events db batch_size
  if unsynced.isEmpty then (db, true)
  else
    match post with
    | .success =>
      let db1 := unsynced.foldl
        (fun d e => mark_event_as_synced d e.id now) db
      let last_id := match unsynced.getLast? with
        | some e => e.id
        | none => 0
      (create_or_update_sync_metadata db1 "eventos_local" now last_id, true)
    | _ => (db, false)

-- --- cloud_sync.py: telemetry ---

/-- `get_unsynced_telemetry`. -/
def get_unsynced_telemetry (db : EdgeDB) (limit : Nat) :
    List TelemetryLocal :=
  (db.telemetria.filter (fun t => t.synced_to_cloud == false)).take limit

/-- `mark_telemetry_as_synced`. -/
def mark_telemetry_as_synced (db : EdgeDB) (telemetry_id now : Nat) :
    EdgeDB :=
  let ts := replaceFirst (fun t => t.id == telemetry_id)
    (fun t => { t with synced_to_cloud := true, sent_to_cloud_at := some now })
    db.telemetria
  { db with telemetria := ts }

/-- `send_unsynced_telemetry_to_cloud`: POST each selected record on its
own (`send_ok` is the per-record outcome of
`_send_single_telemetry_to_cloud_api`), marking a record immediately on
its own success; the watermark row is touched only when at least one
record went through, using `records[success_count - 1].id` as the code
does. -/
def send_unsynced_telemetry_to_cloud (db : EdgeDB) (batch_size : Nat)
    (send_ok : Nat → Bool) (now : Nat) : EdgeDB × Bool :=
  let recs := get_unsynced_telemetry db batch_size
  if recs.isEmpty then (db, true)
  else
    let step := recs.foldl
      (fun (st : EdgeDB × Nat) r =>
        if send_ok r.id then
          (mark_telemetry_as_synced st.1 r.id now, st.2 + 1)
        else st)
      (db, 0)
    if step.2 > 0 then
      let meta_id := match recs[step.2 - 1]? with
        | some r => r.id
        | none => 0
      (create_or_update_sync_metadata step.1 "telemetry_local" now meta_id,
        true)
    else (step.1, false)

-- --- derived notions used by the theorems ---

/-- Number of assignment rows that are Active (state `'Activo'`, null end
date) for a bus. -/
def active_count (db : EdgeDB) (bus_id : Nat) : Nat :=
  db.asignaciones.countP (activo_para_bus bus_id)

-- ------------------------------------------------------------------
-- Theorems
-- ------------------------------------------------------------------

/-- C9: a scan whose input does not parse as a UUID (`qr_data = none`)
returns the validation-failure result ("QR inválido"), creates and closes
nothing, and leaves the whole stored state unchanged. -/
theorem C9_invalid_scan_changes_nothing (db : EdgeDB) (bus_id : Nat)
    (fn : Nat → CloudResp) (now fa fs : Nat) (ck : Nat → Bool) (k : Nat) :
    (create_driver_session_from_qr_robust db none bus_id fn now fa fs
        ck k).db = db ∧
    (create_driver_session_from_qr_robust db none bus_id fn now fa fs
        ck k).session = none ∧
    (create_driver_session_from_qr_robust db none bus_id fn now fa fs
        ck k).conductor = none ∧
    (create_driver_session_from_qr_robust db none bus_id fn now fa fs
        ck k).resultado.status = "error" ∧
    (create_driver_session_from_qr_robust db none bus_id fn now fa fs
        ck k).resultado.message = "QR inválido: no es un UUID válido" :=
  ⟨rfl, rfl, rfl, rfl, rfl⟩

/-- Attaching media paths and inserting never touches the driver / session /
bus references of the payload, always appends exactly the created row, and
creates it with `archivos_synced = false`. -/
theorem create_event_with_multimedia_fields (db : EdgeDB) (ed : EventData)
    (sp vp : Option String) (fid : Nat) :
    (create_event_with_multimedia db ed sp vp fid).2.eventos =
        db.eventos ++ [(create_event_with_multimedia db ed sp vp fid).1] ∧
    (create_event_with_multimedia db ed sp vp fid).1.id_conductor =
        ed.id_conductor.getD 0 ∧
    (create_event_with_multimedia db ed sp vp fid).1.id_sesion_conduccion =
        ed.id_sesion_conduccion ∧
    (create_event_with_multimedia db ed sp vp fid).1.id_bus =
        ed.id_bus.getD 0 ∧
    (create_event_with_multimedia db ed sp vp fid).1.archivos_synced =
        false := by
  rcases sp with _ | p <;> rcases vp with _ | q <;>
    simp only [create_event_with_multimedia, create_local_event] <;>
    (try split) <;> (try split) <;>
    refine ⟨?_, ?_, ?_, ?_, ?_⟩ <;> (first | rfl | trivial)

/-- C10: persisting a detected event requires an Active session on the
bus — with no Active assignment the call returns `(none, "error")` and
leaves the store unchanged; with one, exactly one event is appended,
stamped with the assignment's driver and session ids and
`archivos_synced = false`. -/
theorem C10_event_creation_requires_active_session (db : EdgeDB)
    (bus_id : Nat) (ed : EventData) (sp vp : Option String) (fid : Nat) :
    match get_active_asignacion_for_bus db bus_id with
    | none =>
      create_event_with_session_validation db bus_id ed sp vp fid =
        (none, "error", db)
    | some a =>
      ∃ ev,
        (create_event_with_session_validation db bus_id ed sp vp fid).1 =
          some ev ∧
        (create_event_with_session_validation db bus_id ed sp vp
            fid).2.1 = "success" ∧
        (create_event_with_session_validation db bus_id ed sp vp
            fid).2.2.eventos = db.eventos ++ [ev] ∧
        ev.id_conductor = a.id_conductor ∧
        ev.id_sesion_conduccion = some a.id_sesion_conduccion ∧
        ev.id_bus = bus_id ∧
        ev.archivos_synced = false := by
  cases h : get_active_asignacion_for_bus db bus_id with
  | none => simp only [h]; simp [create_event_with_session_validation, h]
  | some a =>
    simp only [h]
    have hm := create_event_with_multimedia_fields db
      { ed with id_conductor := some a.id_conductor, id_sesion_conduccion := some a.id_sesion_conduccion, id_bus := some bus_id }
      sp vp fid
    refine ⟨(create_event_with_multimedia db
        { ed with id_conductor := some a.id_conductor, id_sesion_conduccion := some a.id_sesion_conduccion, id_bus := some bus_id }
        sp vp fid).1, ?_, ?_, ?_, ?_, ?_, ?_, ?_⟩ <;>
      simp [create_event_with_session_validation, h, hm.1, hm.2.1,
        hm.2.2.1, hm.2.2.2.1, hm.2.2.2.2]

/-- A row whose shift state is `'Finalizado'` never counts as Active. -/
theorem activo_para_bus_closed (b : Nat) (a : AsignacionConductorBusLocal)
    (h : a.estado_turno = "Finalizado") : activo_para_bus b a = false := by
  simp [activo_para_bus, h]

/-- Closing (replacing by a `'Finalizado'` row) never increases the number
of Active rows for any bus. -/
theorem close_map_countP_le (l : List AsignacionConductorBusLocal)
    (closed : AsignacionConductorBusLocal) (i b : Nat)
    (hcl : closed.estado_turno = "Finalizado") :
    (l.map (fun x => if x.id == i then closed else x)).countP
        (activo_para_bus b) ≤ l.countP (activo_para_bus b) := by
  rw [List.countP_map]
  apply List.countP_mono_left
  intro a _ ha
  by_cases hx : (a.id == i) = true
  · exfalso
    simp only [Function.comp, hx, if_true] at ha
    rw [activo_para_bus_closed b closed hcl] at ha
    cases ha
  · simpa [Function.comp, hx] using ha

/-- If the Active row found for a bus is closed and the state had at most
one Active row for that bus, no Active row for that bus remains. -/
theorem close_map_countP_zero (l : List AsignacionConductorBusLocal)
    (act closed : AsignacionConductorBusLocal) (b : Nat)
    (hf : l.find? (activo_para_bus b) = some act)
    (hcl : closed.estado_turno = "Finalizado")
    (hcount : l.countP (activo_para_bus b) ≤ 1) :
    (l.map (fun x => if x.id == act.id then closed else x)).countP
        (activo_para_bus b) = 0 := by
  induction l with
  | nil => cases hf
  | cons x xs ih =>
    by_cases hx : activo_para_bus b x = true
    · have hax : act = x := by
        rw [List.find?_cons_of_pos xs hx] at hf
        exact (Option.some.inj hf).symm
      subst hax
      have htail : xs.countP (activo_para_bus b) = 0 := by
        rw [List.countP_cons_of_pos _ _ hx] at hcount
        omega
      have hmap : (xs.map
          (fun x => if x.id == act.id then closed else x)).countP
            (activo_para_bus b) = 0 := by
        have hle := close_map_countP_le xs closed act.id b hcl
        omega
      simp only [List.map_cons]
      rw [List.countP_cons_of_neg _ _ (by
        simp [activo_para_bus_closed b closed hcl])]
      exact hmap
    · have hf2 : xs.find? (activo_para_bus b) = some act := by
        rwa [List.find?_cons_of_neg xs (by simpa using hx)] at hf
      have hcount2 : xs.countP (activo_para_bus b) ≤ 1 := by
        rw [List.countP_cons_of_neg _ _ (by simpa using hx)] at hcount
        exact hcount
      have tail := ih hf2 hcount2
      simp only [List.map_cons]
      by_cases hid : (x.id == act.id) = true
      · rw [if_pos hid, List.countP_cons_of_neg _ _ (by
          rw [activo_para_bus_closed b closed hcl]; simp)]
        exact tail
      · rw [if_neg (by simpa using hid),
          List.countP_cons_of_neg _ _ (by simpa using hx)]
        exact tail

/-- The conditional cloud refresh only touches the conductor table. -/
theorem try_sync_preserves (db : EdgeDB) (c : ConductorLocal)
    (fn : Nat → CloudResp) (f : Bool) (now : Nat) (ck : Nat → Bool)
    (k : Nat) :
    (try_sync_conductor_from_cloud_conditional db c fn f now ck
        k).db.asignaciones = db.asignaciones ∧
    (try_sync_conductor_from_cloud_conditional db c fn f now ck
        k).db.eventos = db.eventos ∧
    (try_sync_conductor_from_cloud_conditional db c fn f now ck
        k).db.config = db.config := by
  unfold try_sync_conductor_from_cloud_conditional
  dsimp only
  repeat' split
  all_goals exact ⟨rfl, rfl, rfl⟩

/-- A successful `ensure_conductor_exists_minimal` only touches the
conductor table. -/
theorem ensure_conductor_ok_fields (db : EdgeDB) (u now : Nat)
    (ck : Nat → Bool) (k : Nat) (db1 : EdgeDB) (k1 : Nat)
    (c : ConductorLocal)
    (h : ensure_conductor_exists_minimal db u now ck k =
      DbStep.ok db1 k1 c) :
    db1.asignaciones = db.asignaciones ∧ db1.eventos = db.eventos ∧
      db1.config = db.config := by
  unfold ensure_conductor_exists_minimal at h
  split at h
  · cases h; exact ⟨rfl, rfl, rfl⟩
  · split at h
    · cases h; exact ⟨rfl, rfl, rfl⟩
    · cases h

/-- A failing `ensure_conductor_exists_minimal` commit persists nothing. -/
theorem ensure_conductor_raised_fields (db : EdgeDB) (u now : Nat)
    (ck : Nat → Bool) (k : Nat) (db1 : EdgeDB) (k1 : Nat)
    (h : ensure_conductor_exists_minimal db u now ck k =
      DbStep.raised db1 k1) :
    db1 = db := by
  unfold ensure_conductor_exists_minimal at h
  split at h
  · cases h
  · split at h
    · cases h
    · cases h; rfl

/-- PASO 5 keeps at-most-one-Active when the scanned bus has no Active row
left and every other bus already satisfied the bound. -/
theorem paso_5_create_count (db : EdgeDB) (c : ConductorLocal)
    (bus_id now fa fs : Nat) (r : Resultado) (ck : Nat → Bool) (k : Nat)
    (b : Nat)
    (h0 : b = bus_id → db.asignaciones.countP (activo_para_bus b) = 0)
    (h1 : db.asignaciones.countP (activo_para_bus b) ≤ 1) :
    active_count (paso_5_create db c bus_id now fa fs r ck k).db b ≤ 1 := by
  unfold paso_5_create create_asignacion_conductor_bus_local
  by_cases hck : ck k = true
  · rw [if_pos hck]
    dsimp only [active_count]
    rw [List.countP_append]
    by_cases hb : b = bus_id
    · rw [h0 hb]
      have hle : List.countP (activo_para_bus b)
          [{ id := fa, id_conductor := c.id, id_bus := bus_id,
             id_sesion_conduccion := fs, fecha_inicio_asignacion := now,
             fecha_fin_asignacion := none, estado_turno := "Activo",
             tipo_asignacion := some "QR_Scan" }] ≤ 1 :=
        le_trans (List.countP_le_length _) (by simp)
      omega
    · have hz : List.countP (activo_para_bus b)
          [{ id := fa, id_conductor := c.id, id_bus := bus_id,
             id_sesion_conduccion := fs, fecha_inicio_asignacion := now,
             fecha_fin_asignacion := none, estado_turno := "Activo",
             tipo_asignacion := some "QR_Scan" }] = 0 := by
        simp [activo_para_bus]
        omega
      omega
  · rw [if_neg hck]
    exact h1

/-- PASO 4 and PASO 5 preserve the at-most-one-Active bound for every
bus. -/
theorem paso_4_5_count (db : EdgeDB) (c : ConductorLocal)
    (bus_id now fa fs : Nat) (r : Resultado) (ck : Nat → Bool) (k : Nat)
    (b : Nat) (h : active_count db b ≤ 1) :
    active_count
      (paso_4_5_session_transition db c bus_id now fa fs r ck k).db b
      ≤ 1 := by
  unfold paso_4_5_session_transition
  rcases hg : get_active_asignacion_for_bus db bus_id with _ | act
  · simp only [hg]
    apply paso_5_create_count
    · intro hb
      subst hb
      exact List.countP_eq_zero.mpr (List.find?_eq_none.mp hg)
    · exact h
  · simp only [hg]
    split
    · -- same driver: close only
      unfold update_asignacion_conductor_bus_local
      by_cases hck : ck k = true
      · rw [if_pos hck]
        dsimp only [active_count]
        exact le_trans (close_map_countP_le _ _ _ _ rfl) h
      · rw [if_neg hck]
        exact h
    · -- different driver: close, then create
      unfold update_asignacion_conductor_bus_local
      by_cases hck : ck k = true
      · rw [if_pos hck]
        dsimp only
        apply paso_5_create_count
        · intro hb
          subst hb
          exact close_map_countP_zero db.asignaciones act _ b hg rfl h
        · exact le_trans (close_map_countP_le _ _ _ _ rfl) h
      · rw [if_neg hck]
        exact h

/-- The scan transition after driver resolution (PASO 2 onwards) preserves
the at-most-one-Active bound for every bus. -/
theorem robust_scan_tail_count (db1 : EdgeDB) (c : ConductorLocal)
    (bus_id : Nat) (fn : Nat → CloudResp) (now fa fs : Nat)
    (ck : Nat → Bool) (k1 : Nat) (b : Nat)
    (h1 : active_count db1 b ≤ 1) :
    active_count
      (let s := try_sync_conductor_from_cloud_conditional db1 c fn false
        now ck k1
       let r : Resultado :=
        { status := "error"
        , message := "Error desconocido"
        , conductor_actualizado := s.success
        , operacion_offline := !s.success
        , datos_temporales := is_conductor_data_minimal s.conductor }
       if !s.conductor.activo then
        ⟨s.db, s.k, none, some s.conductor,
          { r with message :=
              "Conductor " ++ s.conductor.nombre_completo ++
                " está inactivo" }⟩
       else if s.broken then
        ⟨s.db, s.k, none, none,
          { r with message := "Error del sistema" }⟩
       else
        paso_4_5_session_transition s.db s.conductor bus_id now fa fs r ck
          s.k : ScanOut).db b ≤ 1 := by
  have hs := try_sync_preserves db1 c fn false now ck k1
  dsimp only
  split
  · dsimp only [active_count]
    rw [hs.1]
    exact h1
  · split
    · dsimp only [active_count]
      rw [hs.1]
      exact h1
    · apply paso_4_5_count
      dsimp only [active_count]
      rw [hs.1]
      exact h1

/-- C1: for every bus, a completed call of the scan transition
`create_driver_session_from_qr_robust` — whatever the scan input, commit
outcomes and cloud responses — keeps the invariant that at most one
`AsignacionConductorBusLocal` row for that bus has `estado_turno 'Activo'`
and null `fecha_fin_asignacion`, provided the starting state satisfied
it. -/
theorem C1_at_most_one_active_session (db : EdgeDB) (qr : Option Nat)
    (bus_id : Nat) (fn : Nat → CloudResp) (now fa fs : Nat)
    (ck : Nat → Bool) (k : Nat) (b : Nat)
    (h : active_count db b ≤ 1) :
    active_count
      (create_driver_session_from_qr_robust db qr bus_id fn now fa fs ck
        k).db b ≤ 1 := by
  unfold create_driver_session_from_qr_robust
  rcases qr with _ | u
  · exact h
  · dsimp only
    rcases hc : get_conductor_by_uuid db u with _ | c
    · simp only [hc]
      rcases he : ensure_conductor_exists_minimal db u now ck k with
        ⟨db1, k1, c⟩ | ⟨db1, k1⟩
      · simp only [he]
        have hpres := ensure_conductor_ok_fields db u now ck k db1 k1 c he
        exact robust_scan_tail_count db1 c bus_id fn now fa fs ck k1 b
          (by dsimp only [active_count]; rw [hpres.1]; exact h)
      · simp only [he]
        have hdb := ensure_conductor_raised_fields db u now ck k db1 k1 he
        subst hdb
        exact h
    · simp only [hc]
      exact robust_scan_tail_count db c bus_id fn now fa fs ck k b h

-- --- concrete sample data for witnesses and counterexamples ---

/-- Fully-synchronized driver 1 (complete data, fresh, active). -/
def conductor_uno : ConductorLocal :=
  { id := 1, cedula := "C1", nombre_completo := "Ana Diaz"
  , codigo_qr_hash := "1"
  , caracteristicas_faciales_embedding := some [1]
  , activo := true, last_updated_at := some 0 }

/-- Fully-synchronized driver 2 (complete data, fresh, active). -/
def conductor_dos : ConductorLocal :=
  { id := 2, cedula := "C2", nombre_completo := "Beto Cruz"
  , codigo_qr_hash := "2"
  , caracteristicas_faciales_embedding := some [2]
  , activo := true, last_updated_at := some 0 }

/-- Active assignment of driver 1 on bus 7. -/
def asignacion_uno : AsignacionConductorBusLocal :=
  { id := 10, id_conductor := 1, id_bus := 7, id_sesion_conduccion := 11
  , fecha_inicio_asignacion := 0, fecha_fin_asignacion := none
  , estado_turno := "Activo", tipo_asignacion := some "QR_Scan" }

/-- Sample store: agent on bus 7, drivers 1 and 2 cached, driver 1 active
on the bus. -/
def sample_db : EdgeDB :=
  { config := some { id_hardware_jetson := "hw", id_bus_asignado := some 7 }
  , conductores := [conductor_uno, conductor_dos]
  , asignaciones := [asignacion_uno]
  , eventos := [], telemetria := [], sync_metadata := [] }

/-- Cloud oracle: every fetch raises (network down). -/
def cloud_unreachable : Nat → CloudResp := fun _ => CloudResp.raised

/-- Commit oracle: every commit succeeds. -/
def commits_all : Nat → Bool := fun _ => true

/-- Commit oracle: only the first commit succeeds. -/
def commits_first_only : Nat → Bool := fun n => n == 0

/-- Witness for C1: driver 2 takes over bus 7 from driver 1 with the
network down; the bound holds before and after. -/
theorem C1_at_most_one_active_session_witness :
    active_count sample_db 7 ≤ 1 ∧
    active_count
      (create_driver_session_from_qr_robust sample_db (some 2) 7
        cloud_unreachable 5 100 200 commits_all 0).db 7 ≤ 1 :=
  ⟨by decide,
    C1_at_most_one_active_session sample_db (some 2) 7 cloud_unreachable 5
      100 200 commits_all 0 7 (by decide)⟩

/-- When the cached driver needs no refresh, the conditional sync is a
successful no-op. -/
theorem try_sync_noop (db : EdgeDB) (c : ConductorLocal)
    (fn : Nat → CloudResp) (now : Nat) (ck : Nat → Bool) (k : Nat)
    (hupd : should_update_conductor_data c now 24 = false) :
    try_sync_conductor_from_cloud_conditional db c fn false now ck k =
      ⟨db, c, k, true, false⟩ := by
  unfold try_sync_conductor_from_cloud_conditional
  rw [if_pos]
  simp [hupd]

/-- C2 (counterexample to the claim as stated): with driver 1 Active on
bus 7, a scan of driver 2 whose session-creation commit fails does change
the stored state — driver 1's assignment is already committed as
`'Finalizado'` with its end date set, no Active assignment remains, and no
new session exists. -/
theorem C2_counterexample_not_atomic :
    (create_driver_session_from_qr_robust sample_db (some 2) 7
        cloud_unreachable 5 100 200 commits_first_only 0).db ≠ sample_db ∧
    (create_driver_session_from_qr_robust sample_db (some 2) 7
        cloud_unreachable 5 100 200 commits_first_only 0).db.asignaciones =
      [{ asignacion_uno with fecha_fin_asignacion := some 5,
                             estado_turno := "Finalizado" }] ∧
    get_active_asignacion_for_bus
      (create_driver_session_from_qr_robust sample_db (some 2) 7
        cloud_unreachable 5 100 200 commits_first_only 0).db 7 = none ∧
    (create_driver_session_from_qr_robust sample_db (some 2) 7
        cloud_unreachable 5 100 200 commits_first_only 0).session = none :=
  ⟨by decide, by decide, by decide, by decide⟩

/-- C2 (amended): the chained close-then-open of a driver handover is two
separate transactions, not one atomic unit.  The close of the old driver's
session commits first; when every later step succeeds a new Active session
follows, but if the session-creation commit fails the scan reports a
system error and the stored state keeps the old session closed
(`'Finalizado'`, end date set) with no new session created. -/
theorem C2_handover_close_commits_before_create (db : EdgeDB) (u : Nat)
    (c : ConductorLocal) (bus_id : Nat) (fn : Nat → CloudResp)
    (now fa fs : Nat) (ck : Nat → Bool) (k : Nat)
    (a1 : AsignacionConductorBusLocal)
    (hc : get_conductor_by_uuid db u = some c)
    (hact : c.activo = true)
    (hupd : should_update_conductor_data c now 24 = false)
    (hactive : get_active_asignacion_for_bus db bus_id = some a1)
    (hdiff : (a1.id_conductor == c.id) = false)
    (hck1 : ck k = true)
    (hck2 : ck (k + 1) = false) :
    (create_driver_session_from_qr_robust db (some u) bus_id fn now fa fs
        ck k).resultado.status = "error" ∧
    (create_driver_session_from_qr_robust db (some u) bus_id fn now fa fs
        ck k).session = none ∧
    (create_driver_session_from_qr_robust db (some u) bus_id fn now fa fs
        ck k).db.eventos = db.eventos ∧
    (create_driver_session_from_qr_robust db (some u) bus_id fn now fa fs
        ck k).db.asignaciones =
      db.asignaciones.map (fun x =>
        if x.id == a1.id then
          { a1 with fecha_fin_asignacion := some now,
                    estado_turno := "Finalizado" }
        else x) := by
  unfold create_driver_session_from_qr_robust
  simp only [hc]
  rw [try_sync_noop db c fn now ck k hupd]
  dsimp only
  rw [if_neg (by simp [hact])]
  rw [if_neg (by simp)]
  unfold paso_4_5_session_transition
  simp only [hactive]
  rw [if_neg (by simpa using hdiff)]
  unfold update_asignacion_conductor_bus_local
  rw [if_pos hck1]
  dsimp only
  unfold paso_5_create create_asignacion_conductor_bus_local
  dsimp only
  rw [if_neg (by simp [hck2])]
  exact ⟨rfl, rfl, rfl, rfl⟩

/-- Witness for the amended C2 at the sample store: the close commit goes
through, the create commit fails, driver 1's session ends up closed. -/
theorem C2_handover_close_commits_before_create_witness :
    (get_conductor_by_uuid sample_db 2 = some conductor_dos ∧
      conductor_dos.activo = true ∧
      should_update_conductor_data conductor_dos 5 24 = false ∧
      get_active_asignacion_for_bus sample_db 7 = some asignacion_uno ∧
      (asignacion_uno.id_conductor == conductor_dos.id) = false ∧
      commits_first_only 0 = true ∧ commits_first_only (0 + 1) = false) ∧
    ((create_driver_session_from_qr_robust sample_db (some 2) 7
        cloud_unreachable 5 100 200 commits_first_only
        0).resultado.status = "error" ∧
    (create_driver_session_from_qr_robust sample_db (some 2) 7
        cloud_unreachable 5 100 200 commits_first_only 0).session =
      none ∧
    (create_driver_session_from_qr_robust sample_db (some 2) 7
        cloud_unreachable 5 100 200 commits_first_only 0).db.eventos =
      sample_db.eventos ∧
    (create_driver_session_from_qr_robust sample_db (some 2) 7
        cloud_unreachable 5 100 200 commits_first_only
        0).db.asignaciones =
      sample_db.asignaciones.map (fun x =>
        if x.id == asignacion_uno.id then
          { asignacion_uno with fecha_fin_asignacion := some 5,
                                estado_turno := "Finalizado" }
        else x)) :=
  ⟨⟨by decide, by decide, by decide, by decide, by decide, by decide,
      by decide⟩,
    C2_handover_close_commits_before_create sample_db 2 conductor_dos 7
      cloud_unreachable 5 100 200 commits_first_only 0 asignacion_uno
      (by decide) (by decide) (by decide) (by decide) (by decide)
      (by decide) (by decide)⟩

/-- A string built by prepending a marker starts with that marker. -/
theorem py_startswith_append (p r : String) :
    py_startswith (p ++ r) p = true := by
  unfold py_startswith
  rw [String.data_append]
  exact List.isPrefixOf_iff_prefix.mpr (List.prefix_append _ _)

/-- The minimal placeholder row is recognised as minimal. -/
theorem is_conductor_data_minimal_pending (u now : Nat) :
    is_conductor_data_minimal (minimal_conductor_data u now) = true := by
  unfold is_conductor_data_minimal minimal_conductor_data pending_cedula
  rw [py_startswith_append]
  rfl

/-- The minimal placeholder row always needs a refresh. -/
theorem should_update_minimal (u now now2 : Nat) :
    should_update_conductor_data (minimal_conductor_data u now) now2 24 =
      true := by
  unfold should_update_conductor_data
  rw [if_pos (is_conductor_data_minimal_pending u now)]

/-- The active-session lookup only reads the assignment table. -/
theorem get_active_congr (db db2 : EdgeDB) (bus : Nat)
    (h : db2.asignaciones = db.asignaciones) :
    get_active_asignacion_for_bus db2 bus =
      get_active_asignacion_for_bus db bus := by
  unfold get_active_asignacion_for_bus
  rw [h]

/-- When the record needs a refresh but the fetch raises, the conditional
sync reports failure and changes nothing. -/
theorem try_sync_fetch_raises (db : EdgeDB) (c : ConductorLocal)
    (fn : Nat → CloudResp) (now : Nat) (ck : Nat → Bool) (k : Nat)
    (hupd : should_update_conductor_data c now 24 = true)
    (hfn : fn c.id = CloudResp.raised) :
    try_sync_conductor_from_cloud_conditional db c fn false now ck k =
      ⟨db, c, k, false, false⟩ := by
  unfold try_sync_conductor_from_cloud_conditional
  rw [if_neg (by simp [hupd]), hfn]

/-- A scan of a locally unknown driver with the cloud unreachable, all
commits succeeding and no Active session on the bus: the minimal
placeholder driver row is inserted, one new Active session is created for
it, no event row is written, and the scan reports a started session. -/
theorem robust_offline_unknown (db : EdgeDB) (u bus_id : Nat)
    (fn : Nat → CloudResp) (now fa fs : Nat) (ck : Nat → Bool) (k : Nat)
    (hck : ∀ n, ck n = true)
    (hlook : get_conductor_by_uuid db u = none)
    (hfn : fn u = CloudResp.raised)
    (hactive : get_active_asignacion_for_bus db bus_id = none) :
    (create_driver_session_from_qr_robust db (some u) bus_id fn now fa fs
        ck k).resultado.status = "session_started" ∧
    (create_driver_session_from_qr_robust db (some u) bus_id fn now fa fs
        ck k).db.conductores =
      db.conductores ++ [minimal_conductor_data u now] ∧
    (create_driver_session_from_qr_robust db (some u) bus_id fn now fa fs
        ck k).db.asignaciones =
      db.asignaciones ++
        [{ id := fa, id_conductor := u, id_bus := bus_id,
           id_sesion_conduccion := fs, fecha_inicio_asignacion := now,
           fecha_fin_asignacion := none, estado_turno := "Activo",
           tipo_asignacion := some "QR_Scan" }] ∧
    (create_driver_session_from_qr_robust db (some u) bus_id fn now fa fs
        ck k).db.eventos = db.eventos ∧
    (create_driver_session_from_qr_robust db (some u) bus_id fn now fa fs
        ck k).conductor = some (minimal_conductor_data u now) := by
  unfold create_driver_session_from_qr_robust
  simp only [hlook]
  unfold ensure_conductor_exists_minimal
  simp only [hlook]
  rw [if_pos (hck k)]
  dsimp only
  rw [try_sync_fetch_raises _ _ _ _ _ _
    (should_update_minimal u now now) hfn]
  dsimp only
  rw [if_neg (by simp [minimal_conductor_data])]
  rw [if_neg (by simp)]
  unfold paso_4_5_session_transition get_active_asignacion_for_bus
  unfold get_active_asignacion_for_bus at hactive
  dsimp only
  rw [hactive]
  unfold paso_5_create create_asignacion_conductor_bus_local
  rw [if_pos (hck (k + 1))]
  exact ⟨rfl, rfl, rfl, rfl, rfl⟩

/-- Store with an empty cache: agent on bus 1, no drivers, no sessions, no
events. -/
def empty_db_bus1 : EdgeDB :=
  { config := some { id_hardware_jetson := "hw", id_bus_asignado := some 1 }
  , conductores := [], asignaciones := [], eventos := [], telemetria := []
  , sync_metadata := [] }

/-- C3 (counterexample to the claim as stated): an offline scan of the
unknown UUID 42 on an idle bus completes — the placeholder driver row and
one Active session are created — but the event journal stays empty:
no "session started" event is written anywhere in the scan flow. -/
theorem C3_counterexample_no_event_journaled :
    (identify_and_manage_session empty_db_bus1 (some 42) cloud_unreachable
        0 100 200 300 commits_all 0).db.eventos = [] ∧
    (identify_and_manage_session empty_db_bus1 (some 42) cloud_unreachable
        0 100 200 300 commits_all 0).db.asignaciones.length = 1 ∧
    (identify_and_manage_session empty_db_bus1 (some 42) cloud_unreachable
        0 100 200 300 commits_all 0).db.conductores =
      [minimal_conductor_data 42 0] :=
  ⟨by decide, by decide, by decide⟩

/-- C3 (amended): for a scan whose UUID is unknown locally, on a bus with
no Active session and an unreachable cloud, the scan flow creates a
minimal driver row (placeholder cedula and display name, active = true),
creates one new session with `estado_turno 'Activo'` for that driver, and
journals no event at all: the event stream is unchanged. -/
theorem C3_offline_unknown_scan (db : EdgeDB) (u : Nat) (hw : String)
    (bus_id : Nat) (fn : Nat → CloudResp) (now fa fs fe : Nat)
    (ck : Nat → Bool) (k : Nat)
    (hcfg : db.config =
      some { id_hardware_jetson := hw, id_bus_asignado := some bus_id })
    (hck : ∀ n, ck n = true)
    (hlook : get_conductor_by_uuid db u = none)
    (hfn : fn u = CloudResp.raised)
    (hactive : get_active_asignacion_for_bus db bus_id = none) :
    (identify_and_manage_session db (some u) fn now fa fs fe ck
        k).db.conductores =
      db.conductores ++ [minimal_conductor_data u now] ∧
    (minimal_conductor_data u now).cedula =
      "PENDING_SYNC_" ++ (toString u).take 8 ∧
    (minimal_conductor_data u now).nombre_completo =
      "Conductor Pendiente " ++ (toString u).take 8 ∧
    (minimal_conductor_data u now).activo = true ∧
    (identify_and_manage_session db (some u) fn now fa fs fe ck
        k).db.asignaciones =
      db.asignaciones ++
        [{ id := fa, id_conductor := u, id_bus := bus_id,
           id_sesion_conduccion := fs, fecha_inicio_asignacion := now,
           fecha_fin_asignacion := none, estado_turno := "Activo",
           tipo_asignacion := some "QR_Scan" }] ∧
    (identify_and_manage_session db (some u) fn now fa fs fe ck
        k).db.eventos = db.eventos := by
  have hr := robust_offline_unknown db u bus_id fn now fa fs ck k hck
    hlook hfn hactive
  unfold identify_and_manage_session
  rw [hcfg]
  dsimp only
  rw [hr.1]
  rw [if_pos (by decide)]
  exact ⟨hr.2.1, rfl, rfl, rfl, hr.2.2.1, hr.2.2.2.1⟩

/-- Witness for the amended C3 at the empty sample store. -/
theorem C3_offline_unknown_scan_witness :
    (empty_db_bus1.config =
        some { id_hardware_jetson := "hw", id_bus_asignado := some 1 } ∧
      get_conductor_by_uuid empty_db_bus1 42 = none ∧
      cloud_unreachable 42 = CloudResp.raised ∧
      get_active_asignacion_for_bus empty_db_bus1 1 = none) ∧
    ((identify_and_manage_session empty_db_bus1 (some 42)
        cloud_unreachable 0 100 200 300 commits_all 0).db.conductores =
      empty_db_bus1.conductores ++ [minimal_conductor_data 42 0] ∧
    (minimal_conductor_data 42 0).cedula =
      "PENDING_SYNC_" ++ (toString 42).take 8 ∧
    (minimal_conductor_data 42 0).nombre_completo =
      "Conductor Pendiente " ++ (toString 42).take 8 ∧
    (minimal_conductor_data 42 0).activo = true ∧
    (identify_and_manage_session empty_db_bus1 (some 42)
        cloud_unreachable 0 100 200 300 commits_all 0).db.asignaciones =
      empty_db_bus1.asignaciones ++
        [{ id := 100, id_conductor := 42, id_bus := 1,
           id_sesion_conduccion := 200, fecha_inicio_asignacion := 0,
           fecha_fin_asignacion := none, estado_turno := "Activo",
           tipo_asignacion := some "QR_Scan" }] ∧
    (identify_and_manage_session empty_db_bus1 (some 42)
        cloud_unreachable 0 100 200 300 commits_all 0).db.eventos =
      empty_db_bus1.eventos) :=
  ⟨⟨by decide, by decide, by decide, by decide⟩,
    C3_offline_unknown_scan empty_db_bus1 42 "hw" 1 cloud_unreachable 0
      100 200 300 commits_all 0 (by decide) (fun n => rfl) (by decide)
      (by decide) (by decide)⟩

/-- A scan resolving to a cached driver whose active flag is false (and
whose record needs no refresh) fails with the inactive-driver error and
persists nothing. -/
theorem robust_inactive (db : EdgeDB) (u : Nat) (c : ConductorLocal)
    (bus_id : Nat) (fn : Nat → CloudResp) (now fa fs : Nat)
    (ck : Nat → Bool) (k : Nat)
    (hc : get_conductor_by_uuid db u = some c)
    (hact : c.activo = false)
    (hupd : should_update_conductor_data c now 24 = false) :
    create_driver_session_from_qr_robust db (some u) bus_id fn now fa fs
        ck k =
      ⟨db, k, none, some c,
        { status := "error"
        , message := "Conductor " ++ c.nombre_completo ++ " está inactivo"
        , conductor_actualizado := true
        , operacion_offline := false
        , datos_temporales := is_conductor_data_minimal c }⟩ := by
  unfold create_driver_session_from_qr_robust
  simp only [hc]
  rw [try_sync_noop db c fn now ck k hupd]
  dsimp only
  rw [if_pos (by simp [hact])]
  rfl

/-- C7: a scan of a driver whose active flag is false changes no session
row and no driver row; the transition reports the inactive-driver error
with no session; and the scan flow journals exactly one error event whose
session reference is null. -/
theorem C7_inactive_driver_scan (db : EdgeDB) (u : Nat)
    (c : ConductorLocal) (hw : String) (bus_id : Nat)
    (fn : Nat → CloudResp) (now fa fs fe : Nat) (ck : Nat → Bool) (k : Nat)
    (hcfg : db.config =
      some { id_hardware_jetson := hw, id_bus_asignado := some bus_id })
    (hc : get_conductor_by_uuid db u = some c)
    (hact : c.activo = false)
    (hupd : should_update_conductor_data c now 24 = false)
    (hck : ck k = true) :
    (create_driver_session_from_qr_robust db (some u) bus_id fn now fa fs
        ck k).resultado.status = "error" ∧
    (create_driver_session_from_qr_robust db (some u) bus_id fn now fa fs
        ck k).resultado.message =
      "Conductor " ++ c.nombre_completo ++ " está inactivo" ∧
    (create_driver_session_from_qr_robust db (some u) bus_id fn now fa fs
        ck k).session = none ∧
    (create_driver_session_from_qr_robust db (some u) bus_id fn now fa fs
        ck k).db = db ∧
    (identify_and_manage_session db (some u) fn now fa fs fe ck
        k).db.asignaciones = db.asignaciones ∧
    (identify_and_manage_session db (some u) fn now fa fs fe ck
        k).db.conductores = db.conductores ∧
    (identify_and_manage_session db (some u) fn now fa fs fe ck
        k).db.eventos =
      db.eventos ++ [session_error_event fe bus_id c.id now] ∧
    (session_error_event fe bus_id c.id now).id_sesion_conduccion =
      none := by
  have hr := robust_inactive db u c bus_id fn now fa fs ck k hc hact hupd
  refine ⟨by rw [hr], by rw [hr], by rw [hr], by rw [hr], ?_, ?_, ?_, rfl⟩
  all_goals
    unfold identify_and_manage_session
    rw [hcfg]
    dsimp only
    rw [hr]
    dsimp only
    rw [if_neg (by decide), if_neg (by decide)]
    dsimp only
    unfold record_session_error_event
    rw [if_pos hck]

/-- Mapping a conditional replacement over rows none of which match is the
identity. -/
theorem map_if_no_match {α : Type} (key : α → Nat) (i : Nat) (f : α → α)
    (l : List α) (h : ∀ e ∈ l, ¬ key e = i) :
    l.map (fun e => if key e == i then f e else e) = l := by
  induction l with
  | nil => rfl
  | cons x xs ih =>
    rw [List.map_cons, if_neg (by simpa using h x (by simp))]
    rw [ih (fun e he => h e (List.mem_cons_of_mem x he))]

/-- When the key column is duplicate-free, updating the first matching row
is the same as updating every matching row. -/
theorem replaceFirst_eq_map_of_nodup_key {α : Type} (key : α → Nat)
    (i : Nat) (f : α → α) (l : List α)
    (h : (l.map key).Nodup) :
    replaceFirst (fun e => key e == i) f l =
      l.map (fun e => if key e == i then f e else e) := by
  induction l with
  | nil => rfl
  | cons x xs ih =>
    rw [List.map_cons, List.nodup_cons] at h
    by_cases hx : (key x == i) = true
    · have hkey : key x = i := by simpa using hx
      simp only [replaceFirst, List.map_cons, hx, if_true]
      rw [map_if_no_match key i f xs (by
        intro e he hei
        apply h.1
        rw [hkey, ← hei]
        exact List.mem_map_of_mem key he)]
    · simp only [replaceFirst, List.map_cons, hx, if_false,
        Bool.false_eq_true]
      rw [ih h.2]

/-- Marking a batch of events one by one marks, positionally, exactly the
rows whose id occurs in the batch (row ids assumed duplicate-free, as
primary keys are). -/
theorem foldl_mark_events (batch : List EventoLocal) (db : EdgeDB)
    (now : Nat) (h : (db.eventos.map (fun e => e.id)).Nodup) :
    (batch.foldl (fun d e => mark_event_as_synced d e.id now) db).eventos =
      db.eventos.map (fun e =>
        if batch.any (fun b => b.id == e.id) then
          { e with synced_to_cloud := true, sent_to_cloud_at := some now }
        else e) := by
  induction batch generalizing db with
  | nil => simp
  | cons x xs ih =>
    rw [List.foldl_cons]
    have hmark : (mark_event_as_synced db x.id now).eventos =
        db.eventos.map (fun e => if e.id == x.id then
          { e with synced_to_cloud := true, sent_to_cloud_at := some now }
          else e) := by
      unfold mark_event_as_synced
      exact replaceFirst_eq_map_of_nodup_key (fun e => e.id) x.id _
        db.eventos h
    have hids : ((mark_event_as_synced db x.id now).eventos.map
        (fun e => e.id)).Nodup := by
      rw [hmark, List.map_map]
      have hcomp : ((fun e : EventoLocal => e.id) ∘
          (fun e => if e.id == x.id then
            { e with synced_to_cloud := true,
                     sent_to_cloud_at := some now } else e)) =
          fun e : EventoLocal => e.id := by
        funext e
        by_cases he : (e.id == x.id) = true <;> simp [Function.comp, he]
      rw [hcomp]
      exact h
    rw [ih _ hids, hmark, List.map_map]
    apply List.map_congr_left
    intro e _
    dsimp only [Function.comp]
    by_cases hp : e.id = x.id
    · have h1 : (e.id == x.id) = true := by simpa using hp
      have h2 : (x.id == e.id) = true := by simpa using hp.symm
      simp [h1, h2, ite_self]
    · have h1 : (e.id == x.id) = false := by simpa using hp
      have h2 : (x.id == e.id) = false := by
        simpa using fun hh => hp hh.symm
      simp [h1, h2]

/-- Replacing the first matching row commutes with looking the row up
again, provided the update keeps the row matching. -/
theorem find_replaceFirst {α : Type} (p : α → Bool) (f : α → α)
    (l : List α) (hp : ∀ a, p a = true → p (f a) = true) :
    (replaceFirst p f l).find? p = (l.find? p).map f := by
  induction l with
  | nil => rfl
  | cons x xs ih =>
    by_cases hx : p x = true
    · simp only [replaceFirst, hx, if_true]
      rw [List.find?_cons_of_pos _ (hp x hx),
        List.find?_cons_of_pos _ hx]
      rfl
    · simp only [replaceFirst, hx, Bool.false_eq_true, if_false]
      rw [List.find?_cons_of_neg _ hx, List.find?_cons_of_neg _ hx]
      exact ih

/-- After `create_or_update_sync_metadata`, the watermark row of the table
holds exactly the pushed timestamp and last-synced id. -/
theorem get_sync_metadata_after_update (db : EdgeDB) (t : String)
    (lp ui : Nat) :
    (get_sync_metadata (create_or_update_sync_metadata db t lp ui) t).map
      (fun m => (m.ultimo_id_sincronizado_local, m.last_pushed_at)) =
      some (some ui, some lp) := by
  unfold create_or_update_sync_metadata
  cases hm : get_sync_metadata db t with
  | some m0 =>
    unfold get_sync_metadata at hm ⊢
    dsimp only
    rw [find_replaceFirst (fun m => m.tabla_nombre == t)
      (fun m => { m with last_pushed_at := some lp, ultimo_id_sincronizado_local := some ui })
      db.sync_metadata (fun a ha => ha), hm]
    rfl
  | none =>
    unfold get_sync_metadata at hm ⊢
    dsimp only
    rw [List.find?_append, hm]
    rw [List.find?_cons_of_pos _ (by simp)]
    rfl

/-- Updating the watermark table touches no other table. -/
theorem create_or_update_sync_metadata_preserves (db : EdgeDB) (t : String)
    (lp ui : Nat) :
    (create_or_update_sync_metadata db t lp ui).eventos = db.eventos ∧
    (create_or_update_sync_metadata db t lp ui).telemetria =
      db.telemetria ∧
    (create_or_update_sync_metadata db t lp ui).asignaciones =
      db.asignaciones := by
  unfold create_or_update_sync_metadata
  split <;> exact ⟨rfl, rfl, rfl⟩

/-- C4: event push is all-or-nothing over its selected batch.  If the
single POST fails (timeout, connection error, HTTP error status) the store
is unchanged — no selected event is marked and the watermark does not
advance — so the same events are selected again next cycle.  If the POST
succeeds, every selected event (and only those) is marked synced and the
watermark row records the last id of the batch. -/
theorem C4_event_push_all_or_nothing (db : EdgeDB) (n : Nat)
    (post : PostOutcome) (now : Nat)
    (hids : (db.eventos.map (fun e => e.id)).Nodup) :
    (post ≠ PostOutcome.success →
      (send_events_to_cloud db n post now).1 = db ∧
      get_unsynced_events (send_events_to_cloud db n post now).1 n =
        get_unsynced_events db n) ∧
    (post = PostOutcome.success →
      (send_events_to_cloud db n post now).1.eventos =
        db.eventos.map (fun e =>
          if (get_unsynced_events db n).any (fun b => b.id == e.id) then
            { e with synced_to_cloud := true,
                     sent_to_cloud_at := some now }
          else e) ∧
      (get_unsynced_events db n ≠ [] →
        (get_sync_metadata (send_events_to_cloud db n post now).1
            "eventos_local").map
          (fun m => (m.ultimo_id_sincronizado_local, m.last_pushed_at)) =
          some (some (match (get_unsynced_events db n).getLast? with
                      | some e => e.id
                      | none => 0), some now))) := by
  by_cases hemp : (get_unsynced_events db n).isEmpty = true
  · have hnil : get_unsynced_events db n = [] :=
      List.isEmpty_iff.mp hemp
    constructor
    · intro _
      unfold send_events_to_cloud
      rw [if_pos hemp]
      exact ⟨rfl, rfl⟩
    · intro _
      constructor
      · unfold send_events_to_cloud
        rw [if_pos hemp, hnil]
        simp
      · intro hne
        exact absurd hnil hne
  · constructor
    · intro hpost
      unfold send_events_to_cloud
      rw [if_neg hemp]
      cases post with
      | success => exact absurd rfl hpost
      | timeout => exact ⟨rfl, rfl⟩
      | connError => exact ⟨rfl, rfl⟩
      | httpError => exact ⟨rfl, rfl⟩
    · intro hpost
      subst hpost
      unfold send_events_to_cloud
      rw [if_neg hemp]
      dsimp only
      constructor
      · rw [(create_or_update_sync_metadata_preserves _ _ _ _).1]
        exact foldl_mark_events _ db now hids
      · intro _
        exact get_sync_metadata_after_update _ _ _ _

/-- Witness for C4: two unsynced events, a successful POST: both get
marked and the watermark lands on the second id (and with an HTTP error
nothing changes). -/
def sample_db_events : EdgeDB :=
  { config := none, conductores := [], asignaciones := []
  , eventos :=
      [ session_error_event 21 7 1 0
      , unidentified_driver_event 22 7 0 ]
  , telemetria := [], sync_metadata := [] }

/-- Witness for C4 at the two-event sample store: the batch POST succeeds
and both events are marked with the watermark advanced. -/
theorem C4_event_push_all_or_nothing_witness :
    ((sample_db_events.eventos.map (fun e => e.id)).Nodup) ∧
    ((PostOutcome.success ≠ PostOutcome.success →
      (send_events_to_cloud sample_db_events 50 PostOutcome.success
          9).1 = sample_db_events ∧
      get_unsynced_events (send_events_to_cloud sample_db_events 50
          PostOutcome.success 9).1 50 =
        get_unsynced_events sample_db_events 50) ∧
    (PostOutcome.success = PostOutcome.success →
      (send_events_to_cloud sample_db_events 50 PostOutcome.success
          9).1.eventos =
        sample_db_events.eventos.map (fun e =>
          if (get_unsynced_events sample_db_events 50).any
              (fun b => b.id == e.id) then
            { e with synced_to_cloud := true, sent_to_cloud_at := some 9 }
          else e) ∧
      (get_unsynced_events sample_db_events 50 ≠ [] →
        (get_sync_metadata (send_events_to_cloud sample_db_events 50
            PostOutcome.success 9).1 "eventos_local").map
          (fun m => (m.ultimo_id_sincronizado_local, m.last_pushed_at)) =
          some (some (match (get_unsynced_events sample_db_events
                        50).getLast? with
                      | some e => e.id
                      | none => 0), some 9)))) :=
  ⟨by decide,
    C4_event_push_all_or_nothing sample_db_events 50 PostOutcome.success 9
      (by decide)⟩

/-- Sending telemetry one record at a time marks, positionally, exactly
the selected rows whose own POST succeeded (row ids assumed
duplicate-free, as primary keys are). -/
theorem foldl_send_telemetry (batch : List TelemetryLocal) (db : EdgeDB)
    (m : Nat) (send_ok : Nat → Bool) (now : Nat)
    (h : (db.telemetria.map (fun t => t.id)).Nodup) :
    (batch.foldl
      (fun (st : EdgeDB × Nat) r =>
        if send_ok r.id then
          (mark_telemetry_as_synced st.1 r.id now, st.2 + 1)
        else st)
      (db, m)).1.telemetria =
      db.telemetria.map (fun t =>
        if batch.any (fun b => b.id == t.id && send_ok b.id) then
          { t with synced_to_cloud := true, sent_to_cloud_at := some now }
        else t) := by
  induction batch generalizing db m with
  | nil => simp
  | cons x xs ih =>
    rw [List.foldl_cons]
    by_cases hs : send_ok x.id = true
    · rw [if_pos hs]
      have hmark : (mark_telemetry_as_synced db x.id now).telemetria =
          db.telemetria.map (fun t => if t.id == x.id then
            { t with synced_to_cloud := true,
                     sent_to_cloud_at := some now } else t) := by
        unfold mark_telemetry_as_synced
        exact replaceFirst_eq_map_of_nodup_key (fun t => t.id) x.id _
          db.telemetria h
      have hids : ((mark_telemetry_as_synced db x.id
          now).telemetria.map (fun t => t.id)).Nodup := by
        rw [hmark, List.map_map]
        have hcomp : ((fun t : TelemetryLocal => t.id) ∘
            (fun t => if t.id == x.id then
              { t with synced_to_cloud := true,
                       sent_to_cloud_at := some now } else t)) =
            fun t : TelemetryLocal => t.id := by
          funext t
          by_cases ht : (t.id == x.id) = true <;> simp [Function.comp, ht]
        rw [hcomp]
        exact h
      rw [ih _ _ hids, hmark, List.map_map]
      apply List.map_congr_left
      intro t _
      dsimp only [Function.comp]
      by_cases hp : t.id = x.id
      · have h1 : (t.id == x.id) = true := by simpa using hp
        have h2 : (x.id == t.id) = true := by simpa using hp.symm
        simp [h1, h2, hs, ite_self]
      · have h1 : (t.id == x.id) = false := by simpa using hp
        have h2 : (x.id == t.id) = false := by
          simpa using fun hh => hp hh.symm
        simp [h1, h2]
    · rw [if_neg hs]
      rw [ih _ _ h]
      apply List.map_congr_left
      intro t _
      have hs0 : send_ok x.id = false := by
        cases hx : send_ok x.id
        · rfl
        · exact absurd hx hs
      have h2 : (x.id == t.id && send_ok x.id) = false := by
        rw [hs0, Bool.and_false]
      simp [h2]

/-- C5: telemetry push acknowledges per record — after a pass, a selected
sample is marked synced exactly when its own POST succeeded, independently
of the outcomes of the other samples in the batch; unselected rows are
untouched. -/
theorem C5_telemetry_push_per_record (db : EdgeDB) (n : Nat)
    (send_ok : Nat → Bool) (now : Nat)
    (hids : (db.telemetria.map (fun t => t.id)).Nodup) :
    (send_unsynced_telemetry_to_cloud db n send_ok now).1.telemetria =
      db.telemetria.map (fun t =>
        if (get_unsynced_telemetry db n).any
            (fun b => b.id == t.id && send_ok b.id) then
          { t with synced_to_cloud := true, sent_to_cloud_at := some now }
        else t) := by
  unfold send_unsynced_telemetry_to_cloud
  by_cases hemp : (get_unsynced_telemetry db n).isEmpty = true
  · rw [if_pos hemp]
    have hnil : get_unsynced_telemetry db n = [] :=
      List.isEmpty_iff.mp hemp
    rw [hnil]
    simp
  · rw [if_neg hemp]
    dsimp only
    split
    · rw [(create_or_update_sync_metadata_preserves _ _ _ _).2.1]
      exact foldl_send_telemetry _ db 0 send_ok now hids
    · exact foldl_send_telemetry _ db 0 send_ok now hids

/-- Witness for C5: three unsynced samples; the middle POST fails, the
other two succeed, and exactly those two end up marked. -/
def sample_db_telemetry : EdgeDB :=
  { config := none, conductores := [], asignaciones := [], eventos := []
  , telemetria :=
      [ { id := 31, id_hardware_jetson := "hw", timestamp_telemetry := 1
        , synced_to_cloud := false, sent_to_cloud_at := none }
      , { id := 32, id_hardware_jetson := "hw", timestamp_telemetry := 2
        , synced_to_cloud := false, sent_to_cloud_at := none }
      , { id := 33, id_hardware_jetson := "hw", timestamp_telemetry := 3
        , synced_to_cloud := false, sent_to_cloud_at := none } ]
  , sync_metadata := [] }

/-- Witness for C5 at the three-record sample store: record 32's POST
fails, the other two succeed and are marked independently. -/
theorem C5_telemetry_push_per_record_witness :
    ((sample_db_telemetry.telemetria.map (fun t => t.id)).Nodup) ∧
    (send_unsynced_telemetry_to_cloud sample_db_telemetry 50
        (fun i => i != 32) 9).1.telemetria =
      sample_db_telemetry.telemetria.map (fun t =>
        if (get_unsynced_telemetry sample_db_telemetry 50).any
            (fun b => b.id == t.id && (b.id != 32)) then
          { t with synced_to_cloud := true, sent_to_cloud_at := some 9 }
        else t) :=
  ⟨by decide,
    C5_telemetry_push_per_record sample_db_telemetry 50 (fun i => i != 32)
      9 (by decide)⟩

/-- Replacing the first matching row keeps the list length. -/
theorem replaceFirst_length {α : Type} (p : α → Bool) (f : α → α)
    (l : List α) : (replaceFirst p f l).length = l.length := by
  induction l with
  | nil => rfl
  | cons x xs ih =>
    by_cases hx : p x = true
    · simp [replaceFirst, hx]
    · simp [replaceFirst, hx, ih]

/-- Positionally, replacing the first matching row either keeps a row or
applies the update to a row that matched. -/
theorem replaceFirst_get {α : Type} (p : α → Bool) (f : α → α)
    (l : List α) (i : Nat) (h1 : i < l.length)
    (h2 : i < (replaceFirst p f l).length) :
    (replaceFirst p f l).get ⟨i, h2⟩ = l.get ⟨i, h1⟩ ∨
      ((replaceFirst p f l).get ⟨i, h2⟩ = f (l.get ⟨i, h1⟩) ∧
        p (l.get ⟨i, h1⟩) = true) := by
  induction l generalizing i with
  | nil => exact absurd h1 (Nat.not_lt_zero i)
  | cons x xs ih =>
    by_cases hx : p x = true
    · cases i with
      | zero => right; exact ⟨by simp [replaceFirst, hx], by simp [hx]⟩
      | succ j => left; simp [replaceFirst, hx]
    · cases i with
      | zero => left; simp [replaceFirst, hx]
      | succ j =>
        have h1j : j < xs.length := Nat.lt_of_succ_lt_succ h1
        have h2j : j < (replaceFirst p f xs).length := by
          rw [replaceFirst_length]; exact h1j
        have := ih j h1j h2j
        simpa [replaceFirst, hx] using this

/-- Positional monotonicity of the two sync flags of the event rows. -/
def eventos_flags_monotone (old new : List EventoLocal) : Prop :=
  new.length = old.length ∧
  ∀ i (h1 : i < old.length) (h2 : i < new.length),
    ((old.get ⟨i, h1⟩).synced_to_cloud = true →
      (new.get ⟨i, h2⟩).synced_to_cloud = true) ∧
    ((old.get ⟨i, h1⟩).archivos_synced = true →
      (new.get ⟨i, h2⟩).archivos_synced = true)

/-- A first-match replacement that never lowers the two flags of a
matching row is flag-monotone. -/
theorem replaceFirst_flags_monotone (p : EventoLocal → Bool)
    (f : EventoLocal → EventoLocal) (l : List EventoLocal)
    (hf : ∀ e ∈ l, p e = true →
      (e.synced_to_cloud = true → (f e).synced_to_cloud = true) ∧
      (e.archivos_synced = true → (f e).archivos_synced = true)) :
    eventos_flags_monotone l (replaceFirst p f l) := by
  refine ⟨replaceFirst_length p f l, ?_⟩
  intro i h1 h2
  rcases replaceFirst_get p f l i h1 h2 with hsame | ⟨hrep, hp⟩
  · rw [hsame]
    exact ⟨fun hh => hh, fun hh => hh⟩
  · rw [hrep]
    exact hf _ (l.get_mem _ _) hp

/-- The flag-monotone relation is reflexive. -/
theorem eventos_flags_monotone_refl (l : List EventoLocal) :
    eventos_flags_monotone l l :=
  ⟨rfl, fun _ _ _ => ⟨fun hh => hh, fun hh => hh⟩⟩

/-- The snapshot-pruning step never touches the sync flags. -/
theorem cleanup_snapshot_step_flags (event : EventoLocal)
    (fse rmo : String → Bool) :
    (cleanup_snapshot_step event fse rmo).1.synced_to_cloud =
        event.synced_to_cloud ∧
    (cleanup_snapshot_step event fse rmo).1.archivos_synced =
        event.archivos_synced := by
  unfold cleanup_snapshot_step
  cases hsp : event.snapshot_local_path with
  | none => exact ⟨rfl, rfl⟩
  | some p =>
    dsimp only
    split
    · split
      · exact ⟨rfl, rfl⟩
      · exact ⟨rfl, rfl⟩
    · exact ⟨rfl, rfl⟩

/-- The video-pruning step never touches the sync flags. -/
theorem cleanup_video_step_flags (e1 : EventoLocal)
    (fse rmo : String → Bool) :
    (cleanup_video_step e1 fse rmo).1.synced_to_cloud =
        e1.synced_to_cloud ∧
    (cleanup_video_step e1 fse rmo).1.archivos_synced =
        e1.archivos_synced := by
  unfold cleanup_video_step
  cases hsp : e1.video_clip_local_path with
  | none => exact ⟨rfl, rfl⟩
  | some p =>
    dsimp only
    split
    · split
      · exact ⟨rfl, rfl⟩
      · exact ⟨rfl, rfl⟩
    · exact ⟨rfl, rfl⟩

/-- The file-pruning steps of the cleanup never touch the flags of the
event row. -/
theorem cleanup_steps_preserve_flags (event : EventoLocal)
    (fse rmo : String → Bool) :
    ((cleanup_video_step (cleanup_snapshot_step event fse rmo).1 fse
        rmo).1.synced_to_cloud = event.synced_to_cloud ∧
     (cleanup_video_step (cleanup_snapshot_step event fse rmo).1 fse
        rmo).1.archivos_synced = event.archivos_synced) := by
  have h1 := cleanup_snapshot_step_flags event fse rmo
  have h2 := cleanup_video_step_flags
    (cleanup_snapshot_step event fse rmo).1 fse rmo
  exact ⟨h2.1.trans h1.1, h2.2.trans h1.2⟩

/-- C6: sync flags are monotonic — neither `mark_event_as_synced` nor
`mark_event_files_as_synced` nor `cleanup_event_files` ever turns a true
`synced_to_cloud` or `archivos_synced` flag of any stored event back to
false. -/
theorem C6_sync_flags_monotone (db : EdgeDB) (eid1 eid2 now : Nat)
    (ev : EventoLocal) (fse rmo : String → Bool)
    (hids : (db.eventos.map (fun e => e.id)).Nodup)
    (hmem : ev ∈ db.eventos) :
    eventos_flags_monotone db.eventos
      (mark_event_as_synced db eid1 now).eventos ∧
    eventos_flags_monotone db.eventos
      (mark_event_files_as_synced db eid2).eventos ∧
    eventos_flags_monotone db.eventos
      (cleanup_event_files db ev fse rmo).1.eventos := by
  refine ⟨?_, ?_, ?_⟩
  · unfold mark_event_as_synced
    exact replaceFirst_flags_monotone _ _ _
      (fun e _ _ => ⟨fun _ => rfl, fun hh => hh⟩)
  · unfold mark_event_files_as_synced
    exact replaceFirst_flags_monotone _ _ _
      (fun e _ _ => ⟨fun hh => hh, fun _ => rfl⟩)
  · unfold cleanup_event_files
    dsimp only
    split
    · apply replaceFirst_flags_monotone
      intro e he hp
      have hee : e = ev := by
        have h1 : e.id = ev.id := by simpa using hp
        exact List.inj_on_of_nodup_map hids he hmem h1
      subst hee
      have hpf := cleanup_steps_preserve_flags e fse rmo
      constructor
      · intro hh; rw [hpf.1]; exact hh
      · intro hh; rw [hpf.2]; exact hh
    · exact eventos_flags_monotone_refl db.eventos

/-- Witness for C6: an event with both flags already true and a media file
on disk keeps both flags through a mark and a cleanup pass. -/
def evento_sincronizado : EventoLocal :=
  { id := 41, id_bus := 7, id_conductor := 1
  , id_sesion_conduccion := some 11, timestamp_evento := 0
  , tipo_evento := "Distraccion", subtipo_evento := none
  , severidad := some "Media", alerta_disparada := false
  , synced_to_cloud := true, sent_to_cloud_at := some 1
  , snapshot_local_path := some "/data/snap41.jpg"
  , video_clip_local_path := none, archivos_synced := true }

def sample_db_synced_event : EdgeDB :=
  { config := none, conductores := [], asignaciones := []
  , eventos := [evento_sincronizado], telemetria := [], sync_metadata := [] }

/-- Witness for C6 at a store holding one fully-synced event: every
mark / cleanup step keeps both flags true. -/
theorem C6_sync_flags_monotone_witness :
    ((sample_db_synced_event.eventos.map (fun e => e.id)).Nodup ∧
      evento_sincronizado ∈ sample_db_synced_event.eventos) ∧
    (eventos_flags_monotone sample_db_synced_event.eventos
      (mark_event_as_synced sample_db_synced_event 41 9).eventos ∧
    eventos_flags_monotone sample_db_synced_event.eventos
      (mark_event_files_as_synced sample_db_synced_event 41).eventos ∧
    eventos_flags_monotone sample_db_synced_event.eventos
      (cleanup_event_files sample_db_synced_event evento_sincronizado
        (fun _ => true) (fun _ => true)).1.eventos) :=
  ⟨⟨by decide, by decide⟩,
    C6_sync_flags_monotone sample_db_synced_event 41 41 9
      evento_sincronizado (fun _ => true) (fun _ => true) (by decide)
      (by decide)⟩

/-- Convert a refuted Bool equation to the opposite value. -/
theorem bool_not_true {b : Bool} (h : ¬ b = true) : b = false := by
  cases b
  · rfl
  · exact absurd rfl h

/-- A negated Bool that equals true was false. -/
theorem bool_bnot_true {b : Bool} (h : (!b) = true) : b = false := by
  cases b
  · rfl
  · exact absurd h (by decide)

/-- The cedula-update condition of the cloud refresh is inert for `c`. -/
def stable_cedula (c : ConductorLocal) (d : CloudConductorData) : Bool :=
  match d.cedula with
  | some s =>
    !((s != "") && (py_startswith c.cedula "PENDING_SYNC_" || c.cedula != s))
  | none => true

/-- The name-update condition of the cloud refresh is inert for `c`. -/
def stable_nombre (c : ConductorLocal) (d : CloudConductorData) : Bool :=
  match d.nombre_completo with
  | some s =>
    !((s != "") && (py_startswith c.nombre_completo "Conductor Pendiente" ||
      c.nombre_completo != s))
  | none => true

/-- The embedding-update condition of the cloud refresh is inert for
`c`. -/
def stable_embedding (c : ConductorLocal) (d : CloudConductorData) :
    Bool :=
  match d.caracteristicas_faciales_embedding with
  | some l =>
    !((!l.isEmpty) && (c.caracteristicas_faciales_embedding != some l))
  | none => true

/-- The active-flag-update condition of the cloud refresh is inert for
`c`. -/
def stable_activo (c : ConductorLocal) (d : CloudConductorData) : Bool :=
  !(c.activo != d.activo.getD true)

theorem upd_cedula_of_stable (c : ConductorLocal) (d : CloudConductorData)
    (h : stable_cedula c d = true) : upd_cedula c d = (c, false) := by
  unfold stable_cedula at h
  unfold upd_cedula
  cases hd : d.cedula with
  | none => rfl
  | some s =>
    rw [hd] at h
    dsimp only at h
    have hcond := bool_bnot_true h
    dsimp only
    rw [if_neg (by simp [hcond])]

theorem upd_nombre_of_stable (c : ConductorLocal) (d : CloudConductorData)
    (h : stable_nombre c d = true) : upd_nombre c d = (c, false) := by
  unfold stable_nombre at h
  unfold upd_nombre
  cases hd : d.nombre_completo with
  | none => rfl
  | some s =>
    rw [hd] at h
    dsimp only at h
    have hcond := bool_bnot_true h
    dsimp only
    rw [if_neg (by simp [hcond])]

theorem upd_embedding_of_stable (c : ConductorLocal)
    (d : CloudConductorData) (h : stable_embedding c d = true) :
    upd_embedding c d = (c, false) := by
  unfold stable_embedding at h
  unfold upd_embedding
  cases hd : d.caracteristicas_faciales_embedding with
  | none => rfl
  | some l =>
    rw [hd] at h
    dsimp only at h
    have hcond := bool_bnot_true h
    dsimp only
    rw [if_neg (by simp [hcond])]

theorem upd_activo_of_stable (c : ConductorLocal) (d : CloudConductorData)
    (h : stable_activo c d = true) : upd_activo c d = (c, false) := by
  unfold stable_activo at h
  unfold upd_activo
  have hcond := bool_bnot_true h
  rw [if_neg (by simp [hcond])]

/-- Applying a whole cloud payload whose four conditions are inert changes
nothing and reports no update. -/
theorem apply_of_stable (c : ConductorLocal) (d : CloudConductorData)
    (h1 : stable_cedula c d = true) (h2 : stable_nombre c d = true)
    (h3 : stable_embedding c d = true) (h4 : stable_activo c d = true) :
    apply_cloud_conductor_fields c d = (c, false) := by
  unfold apply_cloud_conductor_fields
  rw [upd_cedula_of_stable c d h1]
  dsimp only
  rw [upd_nombre_of_stable c d h2]
  dsimp only
  rw [upd_embedding_of_stable c d h3]
  dsimp only
  rw [upd_activo_of_stable c d h4]
  rfl


/-- After the cedula step (clean payload), the cedula condition is
inert. -/
theorem stable_cedula_after (c : ConductorLocal) (d : CloudConductorData)
    (hclean : ∀ s, d.cedula = some s →
      py_startswith s "PENDING_SYNC_" = false) :
    stable_cedula (upd_cedula c d).1 d = true := by
  unfold upd_cedula stable_cedula
  cases hd : d.cedula with
  | none => rfl
  | some s =>
    dsimp only
    split
    · dsimp only
      simp [hclean s hd]
    · next hcond =>
      dsimp only
      simp only [Bool.not_eq_eq_eq_not, Bool.not_true]
      exact bool_not_true hcond

/-- After the name step (clean payload), the name condition is inert. -/
theorem stable_nombre_after (c : ConductorLocal) (d : CloudConductorData)
    (hclean : ∀ s, d.nombre_completo = some s →
      py_startswith s "Conductor Pendiente" = false) :
    stable_nombre (upd_nombre c d).1 d = true := by
  unfold upd_nombre stable_nombre
  cases hd : d.nombre_completo with
  | none => rfl
  | some s =>
    dsimp only
    split
    · dsimp only
      simp [hclean s hd]
    · next hcond =>
      dsimp only
      simp only [Bool.not_eq_eq_eq_not, Bool.not_true]
      exact bool_not_true hcond

/-- After the embedding step, the embedding condition is inert. -/
theorem stable_embedding_after (c : ConductorLocal)
    (d : CloudConductorData) :
    stable_embedding (upd_embedding c d).1 d = true := by
  unfold upd_embedding stable_embedding
  cases hd : d.caracteristicas_faciales_embedding with
  | none => rfl
  | some l =>
    dsimp only
    split
    · dsimp only
      simp
    · next hcond =>
      dsimp only
      simp only [Bool.not_eq_eq_eq_not, Bool.not_true]
      exact bool_not_true hcond

/-- After the active-flag step, the active-flag condition is inert. -/
theorem stable_activo_after (c : ConductorLocal)
    (d : CloudConductorData) :
    stable_activo (upd_activo c d).1 d = true := by
  unfold upd_activo stable_activo
  dsimp only
  split
  · dsimp only
    simp
  · next hcond =>
    dsimp only
    simp only [Bool.not_eq_eq_eq_not, Bool.not_true]
    exact bool_not_true hcond

/-- The name step only touches the name column. -/
theorem upd_nombre_other (c : ConductorLocal) (d : CloudConductorData) :
    (upd_nombre c d).1.cedula = c.cedula ∧
    (upd_nombre c d).1.caracteristicas_faciales_embedding =
      c.caracteristicas_faciales_embedding ∧
    (upd_nombre c d).1.activo = c.activo ∧
    (upd_nombre c d).1.id = c.id := by
  unfold upd_nombre
  cases d.nombre_completo <;> dsimp only <;> (try split) <;>
    exact ⟨rfl, rfl, rfl, rfl⟩

/-- The embedding step only touches the embedding column. -/
theorem upd_embedding_other (c : ConductorLocal)
    (d : CloudConductorData) :
    (upd_embedding c d).1.cedula = c.cedula ∧
    (upd_embedding c d).1.nombre_completo = c.nombre_completo ∧
    (upd_embedding c d).1.activo = c.activo ∧
    (upd_embedding c d).1.id = c.id := by
  unfold upd_embedding
  cases d.caracteristicas_faciales_embedding <;> dsimp only <;>
    (try split) <;> exact ⟨rfl, rfl, rfl, rfl⟩

/-- The active-flag step only touches the active column. -/
theorem upd_activo_other (c : ConductorLocal) (d : CloudConductorData) :
    (upd_activo c d).1.cedula = c.cedula ∧
    (upd_activo c d).1.nombre_completo = c.nombre_completo ∧
    (upd_activo c d).1.caracteristicas_faciales_embedding =
      c.caracteristicas_faciales_embedding ∧
    (upd_activo c d).1.id = c.id := by
  unfold upd_activo
  dsimp only
  split <;> exact ⟨rfl, rfl, rfl, rfl⟩

/-- The cedula step only touches the cedula column. -/
theorem upd_cedula_other (c : ConductorLocal) (d : CloudConductorData) :
    (upd_cedula c d).1.nombre_completo = c.nombre_completo ∧
    (upd_cedula c d).1.caracteristicas_faciales_embedding =
      c.caracteristicas_faciales_embedding ∧
    (upd_cedula c d).1.activo = c.activo ∧
    (upd_cedula c d).1.id = c.id := by
  unfold upd_cedula
  cases d.cedula <;> dsimp only <;> (try split) <;>
    exact ⟨rfl, rfl, rfl, rfl⟩

/-- The cedula condition only reads the cedula column. -/
theorem stable_cedula_congr (c1 c2 : ConductorLocal)
    (d : CloudConductorData) (h : c1.cedula = c2.cedula) :
    stable_cedula c1 d = stable_cedula c2 d := by
  unfold stable_cedula
  cases d.cedula <;> simp [h]

/-- The name condition only reads the name column. -/
theorem stable_nombre_congr (c1 c2 : ConductorLocal)
    (d : CloudConductorData) (h : c1.nombre_completo = c2.nombre_completo) :
    stable_nombre c1 d = stable_nombre c2 d := by
  unfold stable_nombre
  cases d.nombre_completo <;> simp [h]

/-- The embedding condition only reads the embedding column. -/
theorem stable_embedding_congr (c1 c2 : ConductorLocal)
    (d : CloudConductorData)
    (h : c1.caracteristicas_faciales_embedding =
      c2.caracteristicas_faciales_embedding) :
    stable_embedding c1 d = stable_embedding c2 d := by
  unfold stable_embedding
  cases d.caracteristicas_faciales_embedding <;> simp [h]

/-- After applying a clean payload, every condition of the refresh is
inert. -/
theorem apply_stable_after (c : ConductorLocal) (d : CloudConductorData)
    (hc1 : ∀ s, d.cedula = some s →
      py_startswith s "PENDING_SYNC_" = false)
    (hc2 : ∀ s, d.nombre_completo = some s →
      py_startswith s "Conductor Pendiente" = false) :
    stable_cedula (apply_cloud_conductor_fields c d).1 d = true ∧
    stable_nombre (apply_cloud_conductor_fields c d).1 d = true ∧
    stable_embedding (apply_cloud_conductor_fields c d).1 d = true ∧
    stable_activo (apply_cloud_conductor_fields c d).1 d = true := by
  unfold apply_cloud_conductor_fields
  dsimp only
  refine ⟨?_, ?_, ?_, ?_⟩
  · rw [stable_cedula_congr _ (upd_cedula c d).1 d
      (by rw [(upd_activo_other _ _).1, (upd_embedding_other _ _).1,
        (upd_nombre_other _ _).1])]
    exact stable_cedula_after c d hc1
  · rw [stable_nombre_congr _ (upd_nombre (upd_cedula c d).1 d).1 d
      (by rw [(upd_activo_other _ _).2.1, (upd_embedding_other _ _).2.1])]
    exact stable_nombre_after (upd_cedula c d).1 d hc2
  · rw [stable_embedding_congr _
      (upd_embedding (upd_nombre (upd_cedula c d).1 d).1 d).1 d
      (by rw [(upd_activo_other _ _).2.2.1])]
    exact stable_embedding_after (upd_nombre (upd_cedula c d).1 d).1 d
  · exact stable_activo_after
      (upd_embedding (upd_nombre (upd_cedula c d).1 d).1 d).1 d

/-- Applying the same clean payload a second time (whatever the refresh
timestamp became) changes nothing. -/
theorem apply_fixpoint (c : ConductorLocal) (d : CloudConductorData)
    (t : Option Nat)
    (hc1 : ∀ s, d.cedula = some s →
      py_startswith s "PENDING_SYNC_" = false)
    (hc2 : ∀ s, d.nombre_completo = some s →
      py_startswith s "Conductor Pendiente" = false) :
    apply_cloud_conductor_fields
        { (apply_cloud_conductor_fields c d).1 with
          last_updated_at := t } d =
      ({ (apply_cloud_conductor_fields c d).1 with
         last_updated_at := t }, false) := by
  have hs := apply_stable_after c d hc1 hc2
  exact apply_of_stable _ d hs.1 hs.2.1 hs.2.2.1 hs.2.2.2

/-- The whole refresh keeps the driver id. -/
theorem apply_id (c : ConductorLocal) (d : CloudConductorData) :
    (apply_cloud_conductor_fields c d).1.id = c.id := by
  unfold apply_cloud_conductor_fields
  dsimp only
  rw [(upd_activo_other _ _).2.2.2, (upd_embedding_other _ _).2.2.2,
    (upd_nombre_other _ _).2.2.2, (upd_cedula_other _ _).2.2.2]

/-- When the record needs a refresh but the fetch finds no data, the
conditional sync reports failure and changes nothing. -/
theorem try_sync_fetch_missing (db : EdgeDB) (c : ConductorLocal)
    (fn : Nat → CloudResp) (now : Nat) (ck : Nat → Bool) (k : Nat)
    (hupd : should_update_conductor_data c now 24 = true)
    (hfn : fn c.id = CloudResp.missing) :
    try_sync_conductor_from_cloud_conditional db c fn false now ck k =
      ⟨db, c, k, false, false⟩ := by
  unfold try_sync_conductor_from_cloud_conditional
  rw [if_neg (by simp [hupd]), hfn]

/-- The refresh path that fetches a payload but finds every field already
in agreement commits nothing. -/
theorem try_sync_found_no_change (db : EdgeDB) (c : ConductorLocal)
    (fn : Nat → CloudResp) (now : Nat) (ck : Nat → Bool) (k : Nat)
    (d : CloudConductorData)
    (hupd : should_update_conductor_data c now 24 = true)
    (hfn : fn c.id = CloudResp.found d)
    (happ : (apply_cloud_conductor_fields c d).2 = false) :
    try_sync_conductor_from_cloud_conditional db c fn false now ck k =
      ⟨db, c, k, true, false⟩ := by
  unfold try_sync_conductor_from_cloud_conditional
  rw [if_neg (by simp [hupd]), hfn]
  dsimp only
  rw [if_neg (by simp [happ])]

/-- The refresh path that fetches a payload, applies it and commits. -/
theorem try_sync_found_updated (db : EdgeDB) (c : ConductorLocal)
    (fn : Nat → CloudResp) (now : Nat) (ck : Nat → Bool) (k : Nat)
    (d : CloudConductorData)
    (hupd : should_update_conductor_data c now 24 = true)
    (hfn : fn c.id = CloudResp.found d)
    (happ : (apply_cloud_conductor_fields c d).2 = true)
    (hck : ck k = true) :
    try_sync_conductor_from_cloud_conditional db c fn false now ck k =
      ⟨{ db with conductores := db.conductores.map (fun x =>
          if x.id == c.id then
            { (apply_cloud_conductor_fields c d).1 with
              last_updated_at := some now }
          else x) },
        { (apply_cloud_conductor_fields c d).1 with
          last_updated_at := some now }, k + 1, true, false⟩ := by
  unfold try_sync_conductor_from_cloud_conditional
  rw [if_neg (by simp [hupd]), hfn]
  dsimp only
  rw [if_pos happ, if_pos hck]

/-- C8 (amended): calling the conditional refresh twice in succession with
the same fetch function returning the same remote payload mutates no field
of the driver row on the second call, provided the payload's cedula and
name do not themselves carry the local placeholder prefixes and the
record's staleness status does not flip between the two calls (it either
already needed a refresh at the first call, or still needs none at the
second). -/
theorem C8_conditional_refresh_idempotent (db : EdgeDB)
    (c : ConductorLocal) (fn : Nat → CloudResp) (now1 now2 : Nat)
    (hclean : ∀ d, fn c.id = CloudResp.found d →
      (∀ s, d.cedula = some s →
        py_startswith s "PENDING_SYNC_" = false) ∧
      (∀ s, d.nombre_completo = some s →
        py_startswith s "Conductor Pendiente" = false))
    (hstale : should_update_conductor_data c now1 24 = true ∨
      should_update_conductor_data c now2 24 = false) :
    (try_sync_conductor_from_cloud_conditional
        (try_sync_conductor_from_cloud_conditional db c fn false now1
          (fun _ => true) 0).db
        (try_sync_conductor_from_cloud_conditional db c fn false now1
          (fun _ => true) 0).conductor
        fn false now2 (fun _ => true)
        (try_sync_conductor_from_cloud_conditional db c fn false now1
          (fun _ => true) 0).k).db =
      (try_sync_conductor_from_cloud_conditional db c fn false now1
        (fun _ => true) 0).db ∧
    (try_sync_conductor_from_cloud_conditional
        (try_sync_conductor_from_cloud_conditional db c fn false now1
          (fun _ => true) 0).db
        (try_sync_conductor_from_cloud_conditional db c fn false now1
          (fun _ => true) 0).conductor
        fn false now2 (fun _ => true)
        (try_sync_conductor_from_cloud_conditional db c fn false now1
          (fun _ => true) 0).k).conductor =
      (try_sync_conductor_from_cloud_conditional db c fn false now1
        (fun _ => true) 0).conductor := by
  by_cases hsu1 : should_update_conductor_data c now1 24 = true
  · cases hfn : fn c.id with
    | raised =>
      rw [try_sync_fetch_raises db c fn now1 _ 0 hsu1 hfn]
      dsimp only
      by_cases hsu2 : should_update_conductor_data c now2 24 = true
      · rw [try_sync_fetch_raises db c fn now2 _ 0 hsu2 hfn]
        exact ⟨rfl, rfl⟩
      · rw [try_sync_noop db c fn now2 _ 0 (bool_not_true hsu2)]
        exact ⟨rfl, rfl⟩
    | missing =>
      rw [try_sync_fetch_missing db c fn now1 _ 0 hsu1 hfn]
      dsimp only
      by_cases hsu2 : should_update_conductor_data c now2 24 = true
      · rw [try_sync_fetch_missing db c fn now2 _ 0 hsu2 hfn]
        exact ⟨rfl, rfl⟩
      · rw [try_sync_noop db c fn now2 _ 0 (bool_not_true hsu2)]
        exact ⟨rfl, rfl⟩
    | found d =>
      have hcl := hclean d hfn
      by_cases happ : (apply_cloud_conductor_fields c d).2 = true
      · rw [try_sync_found_updated db c fn now1 _ 0 d hsu1 hfn happ rfl]
        dsimp only
        have hid2 : ({ (apply_cloud_conductor_fields c d).1 with
            last_updated_at := some now1 } : ConductorLocal).id = c.id :=
          apply_id c d
        have hfn2 : fn ({ (apply_cloud_conductor_fields c d).1 with
            last_updated_at := some now1 } : ConductorLocal).id =
            CloudResp.found d := by
          rw [hid2]; exact hfn
        by_cases hsu2 : should_update_conductor_data
            { (apply_cloud_conductor_fields c d).1 with
              last_updated_at := some now1 } now2 24 = true
        · rw [try_sync_found_no_change _ _ fn now2 _ 1 d hsu2 hfn2 (by
            rw [apply_fixpoint c d (some now1) hcl.1 hcl.2])]
          exact ⟨rfl, rfl⟩
        · rw [try_sync_noop _ _ fn now2 _ 1 (bool_not_true hsu2)]
          exact ⟨rfl, rfl⟩
      · have happf : (apply_cloud_conductor_fields c d).2 = false :=
          bool_not_true happ
        rw [try_sync_found_no_change db c fn now1 _ 0 d hsu1 hfn happf]
        dsimp only
        by_cases hsu2 : should_update_conductor_data c now2 24 = true
        · rw [try_sync_found_no_change db c fn now2 _ 0 d hsu2 hfn happf]
          exact ⟨rfl, rfl⟩
        · rw [try_sync_noop db c fn now2 _ 0 (bool_not_true hsu2)]
          exact ⟨rfl, rfl⟩
  · rw [try_sync_noop db c fn now1 _ 0 (bool_not_true hsu1)]
    dsimp only
    rcases hstale with hl | hr
    · exact absurd hl hsu1
    · rw [try_sync_noop db c fn now2 _ 0 hr]
      exact ⟨rfl, rfl⟩

/-- Driver row that is still minimal (placeholder cedula) but has an
embedding. -/
def conductor_pendiente_ejemplo : ConductorLocal :=
  { id := 5, cedula := "PENDING_SYNC_x", nombre_completo := "N"
  , codigo_qr_hash := "5", caracteristicas_faciales_embedding := some [1]
  , activo := true, last_updated_at := some 0 }

/-- Remote payload whose cedula itself carries the placeholder prefix. -/
def payload_pendiente : CloudConductorData :=
  { cedula := some "PENDING_SYNC_zz", nombre_completo := none
  , caracteristicas_faciales_embedding := none, activo := some true }

/-- Cloud oracle returning the placeholder-prefixed payload. -/
def cloud_payload_pendiente : Nat → CloudResp :=
  fun _ => CloudResp.found payload_pendiente

/-- Store holding only the minimal driver row. -/
def db_pendiente : EdgeDB :=
  { config := none, conductores := [conductor_pendiente_ejemplo]
  , asignaciones := [], eventos := [], telemetria := []
  , sync_metadata := [] }

/-- C8 (counterexample to the claim as stated): two back-to-back refreshes
with the same fetch function and the same remote payload — one whose
cedula itself starts with the placeholder marker — mutate the driver row
again on the second call: `last_updated_at` is re-stamped and the stored
row changes. -/
theorem C8_counterexample_second_call_mutates :
    (try_sync_conductor_from_cloud_conditional
        (try_sync_conductor_from_cloud_conditional db_pendiente
          conductor_pendiente_ejemplo cloud_payload_pendiente false 0
          commits_all 0).db
        (try_sync_conductor_from_cloud_conditional db_pendiente
          conductor_pendiente_ejemplo cloud_payload_pendiente false 0
          commits_all 0).conductor
        cloud_payload_pendiente false 1 commits_all
        (try_sync_conductor_from_cloud_conditional db_pendiente
          conductor_pendiente_ejemplo cloud_payload_pendiente false 0
          commits_all 0).k).conductor ≠
      (try_sync_conductor_from_cloud_conditional db_pendiente
        conductor_pendiente_ejemplo cloud_payload_pendiente false 0
        commits_all 0).conductor ∧
    (try_sync_conductor_from_cloud_conditional
        (try_sync_conductor_from_cloud_conditional db_pendiente
          conductor_pendiente_ejemplo cloud_payload_pendiente false 0
          commits_all 0).db
        (try_sync_conductor_from_cloud_conditional db_pendiente
          conductor_pendiente_ejemplo cloud_payload_pendiente false 0
          commits_all 0).conductor
        cloud_payload_pendiente false 1 commits_all
        (try_sync_conductor_from_cloud_conditional db_pendiente
          conductor_pendiente_ejemplo cloud_payload_pendiente false 0
          commits_all 0).k).db ≠
      (try_sync_conductor_from_cloud_conditional db_pendiente
        conductor_pendiente_ejemplo cloud_payload_pendiente false 0
        commits_all 0).db ∧
    (try_sync_conductor_from_cloud_conditional
        (try_sync_conductor_from_cloud_conditional db_pendiente
          conductor_pendiente_ejemplo cloud_payload_pendiente false 0
          commits_all 0).db
        (try_sync_conductor_from_cloud_conditional db_pendiente
          conductor_pendiente_ejemplo cloud_payload_pendiente false 0
          commits_all 0).conductor
        cloud_payload_pendiente false 1 commits_all
        (try_sync_conductor_from_cloud_conditional db_pendiente
          conductor_pendiente_ejemplo cloud_payload_pendiente false 0
          commits_all 0).k).conductor.last_updated_at = some 1 :=
  ⟨by decide, by decide, by decide⟩

/-- Fully-specified clean remote payload used by the C8 witness. -/
def payload_limpio : CloudConductorData :=
  { cedula := some "C2-N", nombre_completo := some "Beto C."
  , caracteristicas_faciales_embedding := some [9], activo := some true }

/-- Cloud oracle returning the clean payload. -/
def cloud_payload_limpio : Nat → CloudResp :=
  fun _ => CloudResp.found payload_limpio

/-- Witness for the amended C8: a stale driver row refreshed twice from
the same clean payload is untouched by the second call. -/
theorem C8_conditional_refresh_idempotent_witness :
    (try_sync_conductor_from_cloud_conditional
        (try_sync_conductor_from_cloud_conditional sample_db conductor_dos
          cloud_payload_limpio false 200000 (fun _ => true) 0).db
        (try_sync_conductor_from_cloud_conditional sample_db conductor_dos
          cloud_payload_limpio false 200000 (fun _ => true) 0).conductor
        cloud_payload_limpio false 200001 (fun _ => true)
        (try_sync_conductor_from_cloud_conditional sample_db conductor_dos
          cloud_payload_limpio false 200000 (fun _ => true) 0).k).db =
      (try_sync_conductor_from_cloud_conditional sample_db conductor_dos
        cloud_payload_limpio false 200000 (fun _ => true) 0).db ∧
    (try_sync_conductor_from_cloud_conditional
        (try_sync_conductor_from_cloud_conditional sample_db conductor_dos
          cloud_payload_limpio false 200000 (fun _ => true) 0).db
        (try_sync_conductor_from_cloud_conditional sample_db conductor_dos
          cloud_payload_limpio false 200000 (fun _ => true) 0).conductor
        cloud_payload_limpio false 200001 (fun _ => true)
        (try_sync_conductor_from_cloud_conditional sample_db conductor_dos
          cloud_payload_limpio false 200000 (fun _ => true) 0).k).conductor =
      (try_sync_conductor_from_cloud_conditional sample_db conductor_dos
        cloud_payload_limpio false 200000 (fun _ => true) 0).conductor :=
  C8_conditional_refresh_idempotent sample_db conductor_dos
    cloud_payload_limpio 200000 200001
    (fun d hd => by
      cases hd
      exact ⟨fun s hs => by cases hs; decide,
        fun s hs => by cases hs; decide⟩)
    (Or.inl (by decide))

/-- Inactive cached driver with complete, fresh data. -/
def conductor_inactivo : ConductorLocal :=
  { id := 3, cedula := "C3", nombre_completo := "Caro Ruiz"
  , codigo_qr_hash := "3", caracteristicas_faciales_embedding := some [3]
  , activo := false, last_updated_at := some 0 }

/-- Store holding only the inactive driver (agent on bus 7). -/
def sample_db_inactivo : EdgeDB :=
  { config := some { id_hardware_jetson := "hw", id_bus_asignado := some 7 }
  , conductores := [conductor_inactivo], asignaciones := [], eventos := []
  , telemetria := [], sync_metadata := [] }

/-- Witness for C7: the inactive driver 3 scans on bus 7, the store keeps
its sessions and drivers, and exactly one null-session error event is
journaled. -/
theorem C7_inactive_driver_scan_witness :
    (sample_db_inactivo.config =
        some { id_hardware_jetson := "hw", id_bus_asignado := some 7 } ∧
      get_conductor_by_uuid sample_db_inactivo 3 =
        some conductor_inactivo ∧
      conductor_inactivo.activo = false ∧
      should_update_conductor_data conductor_inactivo 5 24 = false ∧
      commits_all 0 = true) ∧
    ((create_driver_session_from_qr_robust sample_db_inactivo (some 3) 7
        cloud_unreachable 5 100 200 commits_all 0).resultado.status =
      "error" ∧
    (create_driver_session_from_qr_robust sample_db_inactivo (some 3) 7
        cloud_unreachable 5 100 200 commits_all 0).resultado.message =
      "Conductor " ++ conductor_inactivo.nombre_completo ++
        " está inactivo" ∧
    (create_driver_session_from_qr_robust sample_db_inactivo (some 3) 7
        cloud_unreachable 5 100 200 commits_all 0).session = none ∧
    (create_driver_session_from_qr_robust sample_db_inactivo (some 3) 7
        cloud_unreachable 5 100 200 commits_all 0).db =
      sample_db_inactivo ∧
    (identify_and_manage_session sample_db_inactivo (some 3)
        cloud_unreachable 5 100 200 300 commits_all 0).db.asignaciones =
      sample_db_inactivo.asignaciones ∧
    (identify_and_manage_session sample_db_inactivo (some 3)
        cloud_unreachable 5 100 200 300 commits_all 0).db.conductores =
      sample_db_inactivo.conductores ∧
    (identify_and_manage_session sample_db_inactivo (some 3)
        cloud_unreachable 5 100 200 300 commits_all 0).db.eventos =
      sample_db_inactivo.eventos ++
        [session_error_event 300 7 conductor_inactivo.id 5] ∧
    (session_error_event 300 7 conductor_inactivo.id
        5).id_sesion_conduccion = none) :=
  ⟨⟨by decide, by decide, by decide, by decide, by decide⟩,
    C7_inactive_driver_scan sample_db_inactivo 3 conductor_inactivo "hw" 7
      cloud_unreachable 5 100 200 300 commits_all 0 (by decide)
      (by decide) (by decide) (by decide) (by decide)⟩
